import Mathlib

/-!
Shallow embedding of the `timelane` crate (`src/lib.rs` and `src/subsecond.rs`).

`Mark` is Rust `isize` on a 64-bit platform: a signed 64-bit integer.  We model
marks as unbounded `Int` for the functional behaviour, and provide a second,
overflow-checked semantics (`Option Int`, every arithmetic primitive checked
against the `i64` range) to settle the overflow/totality claims.  Rust's `/`
and `%` on signed integers truncate towards zero: they are `Int.tdiv` and
`Int.tmod`.
-/

/-- Smallest value of `Mark` (`isize::MIN` on 64-bit): `-2^63`. -/
def intMin : Int := -9223372036854775808

/-- Largest value of `Mark` (`isize::MAX` on 64-bit): `2^63 - 1`. -/
def intMax : Int := 9223372036854775807

/-- The value fits in the `Mark` (64-bit signed) range. -/
def inRange (x : Int) : Prop := intMin ≤ x ∧ x ≤ intMax

instance (x : Int) : Decidable (inRange x) := by unfold inRange; infer_instance

/-- Source `divide_towards_negative_infinity` (src/lib.rs:508-510):
`a / b - if a % b < 0 { 1 } else { 0 }` with Rust truncating `/` and `%`. -/
def divide_towards_negative_infinity (a b : Int) : Int :=
  a.tdiv b - if a.tmod b < 0 then 1 else 0

/-- Source `divide_towards_positive_infinity` (src/lib.rs:513-515):
`a / b + if a % b > 0 { 1 } else { 0 }`. -/
def divide_towards_positive_infinity (a b : Int) : Int :=
  a.tdiv b + if 0 < a.tmod b then 1 else 0

/-- Source `EPOCH_YEAR` (src/lib.rs:47). -/
def EPOCH_YEAR : Int := 2000

/-- Source `ZMONTH_STARTS` (src/lib.rs:49). -/
def ZMONTH_STARTS : List Int := [0, 31, 59, 90, 120, 151, 181, 212, 243, 273, 304, 334]

/-- Source `ZMONTH_STARTS_LEAP_YEAR` (src/lib.rs:51). -/
def ZMONTH_STARTS_LEAP_YEAR : List Int :=
  [0, 31, 60, 91, 121, 152, 182, 213, 244, 274, 305, 335]

/-- Body of `leap_days_before_year` for `year ≠ Mark::MIN` (src/lib.rs:472-477). -/
def leap_days_before_year_core (year : Int) : Int :=
  let years_count := year - 1
  divide_towards_negative_infinity years_count 4
    - divide_towards_negative_infinity years_count 100
    + divide_towards_negative_infinity years_count 400

/-- Source `leap_days_before_year` (src/lib.rs:468-478), with its `Mark::MIN`
overflow guard (shift by one 400-year cycle, subtract 97).  The source's
single recursive call at `year + 400` is inlined as the core body, which is
exact because `year + 400` is never `Mark::MIN` again. -/
def leap_days_before_year (year : Int) : Int :=
  if year = intMin then leap_days_before_year_core (year + 400) - 97
  else leap_days_before_year_core year

/-- Source `year_to_month` (src/lib.rs:103-106). -/
def year_to_month (year : Int) : Int :=
  let zyear := year - EPOCH_YEAR
  zyear * 12 + 1

/-- Source `month_to_day` (src/lib.rs:122-134).  The month-in-year index is
`zmonth % 12` corrected to be non-negative; the array lookup is `getD` with an
in-bounds index. -/
def month_to_day (month : Int) : Int :=
  let zmonth := month - 1
  let zmonth_in_year := zmonth.tmod 12 + if zmonth.tmod 12 < 0 then 12 else 0
  let zyear := divide_towards_negative_infinity zmonth 12
  let zleap_year := zyear + if 2 ≤ zmonth_in_year then 1 else 0
  let leap_days := leap_days_before_year (zleap_year + EPOCH_YEAR)
  let base_leap_days := leap_days_before_year EPOCH_YEAR
  zyear * 365 + ZMONTH_STARTS.getD zmonth_in_year.toNat 0 - base_leap_days + leap_days + 1

/-- Source `day_to_hour` (src/lib.rs:150-153). -/
def day_to_hour (day : Int) : Int :=
  let zday := day - 1
  zday * 24

/-- Source `hour_to_minute` (src/lib.rs:167-169). -/
def hour_to_minute (hour : Int) : Int :=
  hour * 60

/-- Source `year_month_to_minute` (src/lib.rs:84-87). -/
def year_month_to_minute (year month : Int) : Int :=
  let zmonth := month - 1
  hour_to_minute (day_to_hour (month_to_day (zmonth + year_to_month year)))

/-- Source `LEAP_SECONDS_MARKS` (src/lib.rs:54-82). -/
def LEAP_SECONDS_MARKS : List Int :=
  [year_month_to_minute 1972 7,
   year_month_to_minute 1973 1,
   year_month_to_minute 1974 1,
   year_month_to_minute 1975 1,
   year_month_to_minute 1976 1,
   year_month_to_minute 1977 1,
   year_month_to_minute 1978 1,
   year_month_to_minute 1979 1,
   year_month_to_minute 1980 1,
   year_month_to_minute 1981 7,
   year_month_to_minute 1982 7,
   year_month_to_minute 1983 7,
   year_month_to_minute 1985 7,
   year_month_to_minute 1988 1,
   year_month_to_minute 1990 1,
   year_month_to_minute 1991 1,
   year_month_to_minute 1992 7,
   year_month_to_minute 1993 7,
   year_month_to_minute 1994 7,
   year_month_to_minute 1996 1,
   year_month_to_minute 1997 7,
   year_month_to_minute 1999 1,
   year_month_to_minute 2006 1,
   year_month_to_minute 2009 1,
   year_month_to_minute 2012 7,
   year_month_to_minute 2015 7,
   year_month_to_minute 2017 1]

/-- Entry `i` of `LEAP_SECONDS_MARKS` (out-of-range reads are never taken). -/
def marks_at (i : Nat) : Int := LEAP_SECONDS_MARKS.getD i 0

/-- The descending scan of `leap_seconds_before_minute` (src/lib.rs:494-497 and
499-503): starting from `n` entries, drop trailing entries strictly greater
than `minute`; returns the number of entries `≤ minute` (the table being
ascending). -/
def count_marks_le (minute : Int) : Nat → Nat
  | 0 => 0
  | n + 1 => if minute < marks_at n then count_marks_le minute n else n + 1

/-- Source `leap_seconds_before_minute` (src/lib.rs:493-505). -/
def leap_seconds_before_minute (minute : Int) : Int :=
  let leap_seconds := count_marks_le minute LEAP_SECONDS_MARKS.length
  let leap_seconds_offset :=
    count_marks_le (year_month_to_minute EPOCH_YEAR 1) LEAP_SECONDS_MARKS.length
  (leap_seconds : Int) - (leap_seconds_offset : Int)

/-- Source `minute_to_second` (src/lib.rs:185-187). -/
def minute_to_second (minute : Int) : Int :=
  minute * 60 + leap_seconds_before_minute minute

/-- Source `second_to_minute` (src/lib.rs:205-209). -/
def second_to_minute (second : Int) : Int :=
  let estimate := divide_towards_negative_infinity second 60
  divide_towards_negative_infinity (second - leap_seconds_before_minute estimate) 60

/-- Source `second_to_minute_up` (src/lib.rs:228-232). -/
def second_to_minute_up (second : Int) : Int :=
  let estimate := divide_towards_positive_infinity second 60
  divide_towards_positive_infinity (second - leap_seconds_before_minute estimate) 60

/-- Source `minute_to_hour` (src/lib.rs:248-250). -/
def minute_to_hour (minute : Int) : Int :=
  divide_towards_negative_infinity minute 60

/-- Source `minute_to_hour_up` (src/lib.rs:266-268). -/
def minute_to_hour_up (minute : Int) : Int :=
  divide_towards_positive_infinity minute 60

/-- Source `hour_to_day` (src/lib.rs:286-288). -/
def hour_to_day (hour : Int) : Int :=
  divide_towards_negative_infinity hour 24 + 1

/-- Source `hour_to_day_up` (src/lib.rs:306-308). -/
def hour_to_day_up (hour : Int) : Int :=
  divide_towards_positive_infinity hour 24 + 1

/-- Body of `day_to_zyear_and_days` for `day ≠ Mark::MIN` (src/lib.rs:379-398):
estimate the zero-based year, correct it downwards at most once, and return
(zyear, day-of-year, is-leap-year). -/
def day_to_zyear_and_days_core (day : Int) : Int × Int × Bool :=
  let zday := day - 1
  let zyear0 := divide_towards_negative_infinity
    (zday - divide_towards_negative_infinity zday (97 + 400 * 365) * 97) 365
  let leap_days0 :=
    leap_days_before_year (zyear0 + EPOCH_YEAR) - leap_days_before_year EPOCH_YEAR
  let zstart0 := zyear0 * 365 + leap_days0
  let zyear := if zday < zstart0 then zyear0 - 1 else zyear0
  let leap_days :=
    if zday < zstart0 then
      leap_days_before_year (zyear0 - 1 + EPOCH_YEAR) - leap_days_before_year EPOCH_YEAR
    else leap_days0
  let zstart_of_year := if zday < zstart0 then (zyear0 - 1) * 365 + leap_days else zstart0
  let is_leap_year :=
    leap_days < leap_days_before_year (zyear + 1 + EPOCH_YEAR) - leap_days_before_year EPOCH_YEAR
  (zyear, zday - zstart_of_year, is_leap_year)

/-- Source `day_to_zyear_and_days` (src/lib.rs:373-399) with its `Mark::MIN`
guard (shift by one 400-year cycle in days, subtract 400 years); the single
recursive call at `day + 97 + 400 * 365` (never `Mark::MIN` again) is
inlined as the core body. -/
def day_to_zyear_and_days (day : Int) : Int × Int × Bool :=
  if day = intMin then
    let r := day_to_zyear_and_days_core (day + 97 + 400 * 365)
    (r.1 - 400, r.2.1, r.2.2)
  else day_to_zyear_and_days_core day

/-- The month scan of `day_to_month` (src/lib.rs:334-337): starting at
`month = 1`, advance while `month < 12` and `month_ends[month] ≤ zdays_in_year`.
The first argument is fuel, always called with enough for the at most 11
iterations. -/
def month_scan (ends : List Int) (zdays : Int) : Nat → Nat → Nat
  | 0, month => month
  | fuel + 1, month =>
    if month < ends.length ∧ ends.getD month 0 ≤ zdays then
      month_scan ends zdays fuel (month + 1)
    else month

/-- Source `day_to_month` (src/lib.rs:327-339). -/
def day_to_month (day : Int) : Int :=
  let r := day_to_zyear_and_days day
  let month_ends := if r.2.2 then ZMONTH_STARTS_LEAP_YEAR else ZMONTH_STARTS
  r.1 * 12 + (month_scan month_ends r.2.1 12 1 : Int)

/-- The month scan of `day_to_month_up` (src/lib.rs:366-369): advance while
`month ≤ 12` and `month_ends[month - 1] < zdays_in_year`. -/
def month_scan_up (ends : List Int) (zdays : Int) : Nat → Nat → Nat
  | 0, month => month
  | fuel + 1, month =>
    if month ≤ ends.length ∧ ends.getD (month - 1) 0 < zdays then
      month_scan_up ends zdays fuel (month + 1)
    else month

/-- Source `day_to_month_up` (src/lib.rs:359-371). -/
def day_to_month_up (day : Int) : Int :=
  let r := day_to_zyear_and_days day
  let month_ends := if r.2.2 then ZMONTH_STARTS_LEAP_YEAR else ZMONTH_STARTS
  r.1 * 12 + (month_scan_up month_ends r.2.1 13 1 : Int)

/-- Source `month_to_year` (src/lib.rs:415-422) with its `Mark::MIN` guard;
the source's single recursive call at `month + 12` (never `Mark::MIN` again)
is inlined. -/
def month_to_year (month : Int) : Int :=
  if month = intMin then
    (divide_towards_negative_infinity (month + 12 - 1) 12 + EPOCH_YEAR) - 1
  else divide_towards_negative_infinity (month - 1) 12 + EPOCH_YEAR

/-- Source `month_to_year_up` (src/lib.rs:441-448) with its `Mark::MIN`
guard; the source's single recursive call at `month + 12` is inlined. -/
def month_to_year_up (month : Int) : Int :=
  if month = intMin then
    (divide_towards_positive_infinity (month + 12 - 1) 12 + EPOCH_YEAR) - 1
  else divide_towards_positive_infinity (month - 1) 12 + EPOCH_YEAR

/-- Source `nanosecond_to_second` (src/subsecond.rs:25-27). -/
def nanosecond_to_second (mark : Int) : Int :=
  divide_towards_negative_infinity mark 1000000000

/-- Source `nanosecond_to_second_up` (src/subsecond.rs:41-43). -/
def nanosecond_to_second_up (mark : Int) : Int :=
  divide_towards_positive_infinity mark 1000000000

/-- Source `second_to_nanosecond` (src/subsecond.rs:56-58). -/
def second_to_nanosecond (mark : Int) : Int := mark * 1000000000

/-- Source `microsecond_to_second` (src/subsecond.rs:72-74). -/
def microsecond_to_second (mark : Int) : Int :=
  divide_towards_negative_infinity mark 1000000

/-- Source `microsecond_to_second_up` (src/subsecond.rs:88-90). -/
def microsecond_to_second_up (mark : Int) : Int :=
  divide_towards_positive_infinity mark 1000000

/-- Source `second_to_microsecond` (src/subsecond.rs:103-105). -/
def second_to_microsecond (mark : Int) : Int := mark * 1000000

/-- Source `millisecond_to_second` (src/subsecond.rs:119-121). -/
def millisecond_to_second (mark : Int) : Int :=
  divide_towards_negative_infinity mark 1000

/-- Source `millisecond_to_second_up` (src/subsecond.rs:135-137). -/
def millisecond_to_second_up (mark : Int) : Int :=
  divide_towards_positive_infinity mark 1000

/-- Source `second_to_millisecond` (src/subsecond.rs:150-152). -/
def second_to_millisecond (mark : Int) : Int := mark * 1000


/-! ### Bridge lemmas: Rust truncating division to Euclidean division -/

theorem ediv_eq_of {a b : Int} (q r : Int) (hb : 0 < b) (h : r + b * q = a)
    (h0 : 0 ≤ r) (h1 : r < b) : a / b = q :=
  ((Int.ediv_emod_unique hb).mpr ⟨h, h0, h1⟩).1

theorem neg_tmod_left (a b : Int) : (-a).tmod b = -(a.tmod b) := by
  rw [Int.tmod_def, Int.tmod_def, Int.neg_tdiv]; ring

theorem tmod_lb (a : Int) {b : Int} (hb : 0 < b) : -b < a.tmod b := by
  have h := Int.tmod_lt_of_pos (-a) hb
  rw [neg_tmod_left] at h
  omega

/-- The floor-division primitive agrees with Euclidean division for positive
divisors. -/
theorem dtni_eq (a : Int) {b : Int} (hb : 0 < b) :
    divide_towards_negative_infinity a b = a / b := by
  have h1 := Int.tdiv_add_tmod a b
  have h2 := Int.tmod_lt_of_pos a hb
  have h3 := tmod_lb a hb
  unfold divide_towards_negative_infinity
  split
  · have h4 : a / b = a.tdiv b - 1 := ediv_eq_of (a.tdiv b - 1) (a.tmod b + b) hb
      (by linear_combination h1) (by omega) (by omega)
    omega
  · have h4 : a / b = a.tdiv b := ediv_eq_of (a.tdiv b) (a.tmod b) hb
      (by linear_combination h1) (by omega) (by omega)
    omega

/-- The ceiling-division primitive is the negated floor of the negation. -/
theorem dtpi_eq (a : Int) {b : Int} (hb : 0 < b) :
    divide_towards_positive_infinity a b = -(-a / b) := by
  have h1 := Int.tdiv_add_tmod a b
  have h2 := Int.tmod_lt_of_pos a hb
  have h3 := tmod_lb a hb
  unfold divide_towards_positive_infinity
  split
  · have h4 : -a / b = -(a.tdiv b + 1) := ediv_eq_of (-(a.tdiv b + 1)) (b - a.tmod b) hb
      (by linear_combination -h1) (by omega) (by omega)
    omega
  · have h4 : -a / b = -(a.tdiv b) := ediv_eq_of (-(a.tdiv b)) (-(a.tmod b)) hb
      (by linear_combination -h1) (by omega) (by omega)
    omega

/-! ### Closed forms for the leap-day counter -/

theorem leap_days_before_year_core_eq (y : Int) :
    leap_days_before_year_core y = (y - 1) / 4 - (y - 1) / 100 + (y - 1) / 400 := by
  show divide_towards_negative_infinity (y - 1) 4 - divide_towards_negative_infinity (y - 1) 100
      + divide_towards_negative_infinity (y - 1) 400 = _
  rw [dtni_eq _ (by norm_num), dtni_eq _ (by norm_num), dtni_eq _ (by norm_num)]

/-- Closed form of `leap_days_before_year`, valid for every input: at
`Mark::MIN` the 400-year-shift guard agrees with the formula because the
Gregorian rule is exactly periodic (400 years, 97 leap days). -/
theorem leap_days_before_year_eq (y : Int) :
    leap_days_before_year y = (y - 1) / 4 - (y - 1) / 100 + (y - 1) / 400 := by
  unfold leap_days_before_year
  split
  · rename_i h
    rw [leap_days_before_year_core_eq, h]
    unfold intMin
    omega
  · exact leap_days_before_year_core_eq y

/-- The proleptic Gregorian leap-year rule (year 0 is a leap year). -/
def gregLeap (y : Int) : Prop := y % 4 = 0 ∧ (y % 100 ≠ 0 ∨ y % 400 = 0)

instance (y : Int) : Decidable (gregLeap y) := by unfold gregLeap; infer_instance

/-- Difference of the leap-day counter across one year is the leap indicator. -/
theorem leap_days_step (y : Int) :
    leap_days_before_year (y + 1) - leap_days_before_year y =
      if gregLeap y then 1 else 0 := by
  rw [leap_days_before_year_eq, leap_days_before_year_eq]
  unfold gregLeap
  split_ifs with h <;> omega

/-- Leap days between the epoch's start and the start of zero-based year `y`
(the `leap_days` quantity used inside `day_to_zyear_and_days`). -/
def epoch_leap_days (y : Int) : Int :=
  leap_days_before_year (y + EPOCH_YEAR) - leap_days_before_year EPOCH_YEAR

/-- Zero-based day mark on which zero-based year `y` starts (the
`zstart_of_year` quantity inside `day_to_zyear_and_days`). -/
def zstart_of_zyear (y : Int) : Int := y * 365 + epoch_leap_days y

theorem epoch_leap_days_eq (y : Int) :
    epoch_leap_days y = (y + 1999) / 4 - (y + 1999) / 100 + (y + 1999) / 400 - 484 := by
  unfold epoch_leap_days EPOCH_YEAR
  rw [leap_days_before_year_eq, leap_days_before_year_eq]
  omega

theorem zstart_of_zyear_eq (y : Int) :
    zstart_of_zyear y =
      y * 365 + ((y + 1999) / 4 - (y + 1999) / 100 + (y + 1999) / 400 - 484) := by
  unfold zstart_of_zyear
  rw [epoch_leap_days_eq]


/-! ### The leap-second table and counter, characterised -/

/-- The scan of `leap_seconds_before_minute` viewed as walking the table from
its top entry downwards: stop at the first entry at most `m` and report how
many entries lie at or below it. -/
def count_down (m : Int) : List Int → Nat
  | [] => 0
  | x :: rest => if m < x then count_down m rest else rest.length + 1

/-- The table entries from index `n - 1` down to index `0`. -/
def top_list : Nat → List Int
  | 0 => []
  | n + 1 => marks_at n :: top_list n

theorem top_list_length : ∀ n, (top_list n).length = n
  | 0 => rfl
  | n + 1 => by rw [top_list, List.length_cons, top_list_length n]

theorem count_marks_le_eq_down (m : Int) :
    ∀ n, count_marks_le m n = count_down m (top_list n)
  | 0 => rfl
  | n + 1 => by
    rw [count_marks_le, top_list, count_down, top_list_length, count_marks_le_eq_down m n]

/-- The 27 table entries, evaluated, in descending order. -/
def marks_down : List Int := [8942400, 8150400, 6573600, 4734720, 3156480, -525600, -1316160, -2103840, -2894400, -3420000, -3945600, -4733280, -5258880, -6311520, -7627680, -8680320, -9205920, -9731520, -10519200, -11044800, -11570400, -12096000, -12623040, -13148640, -13674240, -14199840, -14464800]

set_option maxHeartbeats 3200000 in
/-- The scan at full length walks exactly the evaluated table, top down. -/
theorem top_list_27 : top_list 27 = marks_down := by rfl

set_option maxHeartbeats 1600000 in
/-- The leap-second table is `marks_down` reversed. -/
theorem marks_eq_rev : LEAP_SECONDS_MARKS = marks_down.reverse := by rfl

theorem count_down_le_length (m : Int) : ∀ l : List Int, count_down m l ≤ l.length
  | [] => Nat.le_refl 0
  | x :: rest => by
    rw [count_down]
    split
    · exact Nat.le_trans (count_down_le_length m rest) (by simp)
    · simp

theorem count_down_full (m : Int) : ∀ l : List Int, (∀ y ∈ l, y ≤ m) →
    count_down m l = l.length
  | [], _ => rfl
  | x :: rest, h => by
    have hx := h x (List.mem_cons_self x rest)
    rw [count_down, if_neg (by omega)]
    simp

theorem count_down_zero (m : Int) : ∀ l : List Int, (∀ y ∈ l, m < y) →
    count_down m l = 0
  | [], _ => rfl
  | x :: rest, h => by
    have hx := h x (List.mem_cons_self x rest)
    rw [count_down, if_pos hx]
    exact count_down_zero m rest (fun y hy => h y (List.mem_cons_of_mem x hy))

theorem count_down_mono {m m' : Int} (h : m ≤ m') : ∀ l : List Int,
    count_down m l ≤ count_down m' l
  | [] => Nat.le_refl 0
  | x :: rest => by
    rw [count_down, count_down]
    by_cases hx : m' < x
    · rw [if_pos (by omega), if_pos hx]
      exact count_down_mono h rest
    · rw [if_neg hx]
      split
      · exact Nat.le_trans (count_down_le_length m rest) (by omega)
      · exact Nat.le_refl _

theorem count_down_step (m : Int) : ∀ l : List Int, l.Pairwise (· > ·) →
    count_down (m + 1) l = count_down m l + (if (m + 1) ∈ l then 1 else 0)
  | [], _ => by simp [count_down]
  | x :: rest, hp => by
    rw [List.pairwise_cons] at hp
    obtain ⟨hgt, hp2⟩ := hp
    rw [count_down, count_down]
    by_cases h1 : m + 1 < x
    · have hxm : (m + 1) ∈ x :: rest ↔ (m + 1) ∈ rest := by
        rw [List.mem_cons]
        constructor
        · rintro (h | h)
          · omega
          · exact h
        · exact Or.inr
      rw [if_pos h1, if_pos (by omega), count_down_step m rest hp2, if_congr hxm rfl rfl]
    · by_cases h3 : x ≤ m
      · have hnm : (m + 1) ∉ x :: rest := by
          rw [List.mem_cons]
          rintro (h | h)
          · omega
          · have := hgt _ h
            omega
        rw [if_neg h1, if_neg (by omega : ¬m < x), if_neg hnm]
      · have hall : ∀ y ∈ rest, y ≤ m := fun y hy => by have := hgt y hy; omega
        have hmem : (m + 1) ∈ x :: rest := by
          rw [List.mem_cons]
          left
          omega
        rw [if_neg h1, if_pos (by omega : m < x), if_pos hmem, count_down_full m rest hall]

set_option maxHeartbeats 1600000 in
/-- `leap_seconds_before_minute` is the number of evaluated table entries at
most the given minute, minus the 22 entries at or before the epoch minute. -/
theorem leap_seconds_before_minute_eq (m : Int) :
    leap_seconds_before_minute m = (count_down m marks_down : Int) - 22 := by
  have hoff : count_marks_le (year_month_to_minute EPOCH_YEAR 1) 27 = 22 := by rfl
  show (count_marks_le m 27 : Int)
      - (count_marks_le (year_month_to_minute EPOCH_YEAR 1) 27 : Int) = _
  rw [hoff, count_marks_le_eq_down m 27, top_list_27]
  norm_num

theorem leap_seconds_bounds (m : Int) :
    -22 ≤ leap_seconds_before_minute m ∧ leap_seconds_before_minute m ≤ 5 := by
  rw [leap_seconds_before_minute_eq]
  have h1 := count_down_le_length m marks_down
  have h2 : marks_down.length = 27 := by rfl
  omega

theorem leap_seconds_low {m : Int} (h : m < -14464800) :
    leap_seconds_before_minute m = -22 := by
  have hmin : ∀ y ∈ marks_down, -14464800 ≤ y := by decide
  rw [leap_seconds_before_minute_eq,
    count_down_zero m marks_down (fun y hy => lt_of_lt_of_le h (hmin y hy))]
  norm_num

theorem leap_seconds_high {m : Int} (h : 8942400 ≤ m) :
    leap_seconds_before_minute m = 5 := by
  have hmax : ∀ y ∈ marks_down, y ≤ 8942400 := by decide
  rw [leap_seconds_before_minute_eq,
    count_down_full m marks_down (fun y hy => le_trans (hmax y hy) h)]
  rfl

theorem leap_seconds_mono {m m' : Int} (h : m ≤ m') :
    leap_seconds_before_minute m ≤ leap_seconds_before_minute m' := by
  rw [leap_seconds_before_minute_eq, leap_seconds_before_minute_eq]
  have := count_down_mono h marks_down
  omega

/-- Across one minute the leap-second count rises by one exactly at a table
entry, and is unchanged otherwise. -/
theorem leap_seconds_step (m : Int) :
    leap_seconds_before_minute (m + 1) =
      leap_seconds_before_minute m + (if (m + 1) ∈ LEAP_SECONDS_MARKS then 1 else 0) := by
  have hpw : marks_down.Pairwise (· > ·) := by decide
  have hmem : ((m + 1) ∈ LEAP_SECONDS_MARKS) ↔ ((m + 1) ∈ marks_down) := by
    rw [marks_eq_rev]
    exact List.mem_reverse
  rw [leap_seconds_before_minute_eq, leap_seconds_before_minute_eq,
    count_down_step m marks_down hpw]
  by_cases hm : (m + 1) ∈ marks_down
  · rw [if_pos hm, if_pos (hmem.mpr hm)]
    push_cast
    ring
  · rw [if_neg hm, if_neg (fun h => hm (hmem.mp h))]
    push_cast
    ring

/-- The length in seconds of minute `m`. -/
theorem minute_span (m : Int) :
    minute_to_second (m + 1) - minute_to_second m =
      if (m + 1) ∈ LEAP_SECONDS_MARKS then 61 else 60 := by
  unfold minute_to_second
  rw [leap_seconds_step]
  split_ifs <;> ring

/-! ### Overflow-checked semantics

Every Rust arithmetic operation on `Mark` (`isize`) panics (or is a
compile-time error in `const` evaluation, or wraps in release builds) if its
mathematical result leaves the 64-bit signed range.  `none` models that
overflow outcome. -/

/-- Check that a result fits the `Mark` range. -/
def chk (x : Int) : Option Int := if inRange x then some x else none

/-- Checked addition. -/
def cadd (a b : Int) : Option Int := chk (a + b)

/-- Checked subtraction. -/
def csub (a b : Int) : Option Int := chk (a - b)

/-- Checked multiplication. -/
def cmul (a b : Int) : Option Int := chk (a * b)

/-- Checked truncating division (`isize` overflows only on `MIN / -1`,
or traps on a zero divisor). -/
def ctdiv (a b : Int) : Option Int :=
  if b = 0 ∨ (a = intMin ∧ b = -1) then none else some (a.tdiv b)

/-- Checked truncating remainder. -/
def ctmod (a b : Int) : Option Int :=
  if b = 0 ∨ (a = intMin ∧ b = -1) then none else some (a.tmod b)

/-- Checked `divide_towards_negative_infinity`. -/
def divide_towards_negative_infinityChecked (a b : Int) : Option Int := do
  let q ← ctdiv a b
  let r ← ctmod a b
  if r < 0 then csub q 1 else pure q

/-- Checked `divide_towards_positive_infinity`. -/
def divide_towards_positive_infinityChecked (a b : Int) : Option Int := do
  let q ← ctdiv a b
  let r ← ctmod a b
  if 0 < r then cadd q 1 else pure q

/-- Checked `year_to_month`. -/
def year_to_monthChecked (year : Int) : Option Int := do
  let zyear ← csub year EPOCH_YEAR
  let p ← cmul zyear 12
  cadd p 1

/-- Checked `leap_days_before_year` body. -/
def leap_days_before_year_coreChecked (year : Int) : Option Int := do
  let years_count ← csub year 1
  let d4 ← divide_towards_negative_infinityChecked years_count 4
  let d100 ← divide_towards_negative_infinityChecked years_count 100
  let d400 ← divide_towards_negative_infinityChecked years_count 400
  let s ← csub d4 d100
  cadd s d400

/-- Checked `leap_days_before_year` (including its `Mark::MIN` guard). -/
def leap_days_before_yearChecked (year : Int) : Option Int :=
  if year = intMin then do
    let shifted ← cadd year 400
    let v ← leap_days_before_year_coreChecked shifted
    csub v 97
  else leap_days_before_year_coreChecked year

/-- Checked `leap_seconds_before_minute` (its loops only compare; the one
`Mark` operation is the final cast subtraction). -/
def leap_seconds_before_minuteChecked (minute : Int) : Option Int :=
  csub (count_marks_le minute LEAP_SECONDS_MARKS.length)
    (count_marks_le (year_month_to_minute EPOCH_YEAR 1) LEAP_SECONDS_MARKS.length)

/-- Checked `minute_to_second`. -/
def minute_to_secondChecked (minute : Int) : Option Int := do
  let p ← cmul minute 60
  let l ← leap_seconds_before_minuteChecked minute
  cadd p l

/-- Checked `second_to_minute`. -/
def second_to_minuteChecked (second : Int) : Option Int := do
  let estimate ← divide_towards_negative_infinityChecked second 60
  let l ← leap_seconds_before_minuteChecked estimate
  let d ← csub second l
  divide_towards_negative_infinityChecked d 60

/-- Checked `second_to_minute_up`. -/
def second_to_minute_upChecked (second : Int) : Option Int := do
  let estimate ← divide_towards_positive_infinityChecked second 60
  let l ← leap_seconds_before_minuteChecked estimate
  let d ← csub second l
  divide_towards_positive_infinityChecked d 60

/-- Checked `minute_to_hour`. -/
def minute_to_hourChecked (minute : Int) : Option Int :=
  divide_towards_negative_infinityChecked minute 60

/-- Checked `minute_to_hour_up`. -/
def minute_to_hour_upChecked (minute : Int) : Option Int :=
  divide_towards_positive_infinityChecked minute 60

/-- Checked `hour_to_day`. -/
def hour_to_dayChecked (hour : Int) : Option Int := do
  let q ← divide_towards_negative_infinityChecked hour 24
  cadd q 1

/-- Checked `hour_to_day_up`. -/
def hour_to_day_upChecked (hour : Int) : Option Int := do
  let q ← divide_towards_positive_infinityChecked hour 24
  cadd q 1

/-- Checked `month_to_year` body for `month ≠ Mark::MIN`. -/
def month_to_year_coreChecked (month : Int) : Option Int := do
  let z ← csub month 1
  let q ← divide_towards_negative_infinityChecked z 12
  cadd q EPOCH_YEAR

/-- Checked `month_to_year` (including its `Mark::MIN` guard). -/
def month_to_yearChecked (month : Int) : Option Int :=
  if month = intMin then do
    let shifted ← cadd month 12
    let v ← month_to_year_coreChecked shifted
    csub v 1
  else month_to_year_coreChecked month

/-- Checked `month_to_year_up` body for `month ≠ Mark::MIN`. -/
def month_to_year_up_coreChecked (month : Int) : Option Int := do
  let z ← csub month 1
  let q ← divide_towards_positive_infinityChecked z 12
  cadd q EPOCH_YEAR

/-- Checked `month_to_year_up` (including its `Mark::MIN` guard). -/
def month_to_year_upChecked (month : Int) : Option Int :=
  if month = intMin then do
    let shifted ← cadd month 12
    let v ← month_to_year_up_coreChecked shifted
    csub v 1
  else month_to_year_up_coreChecked month

/-- Checked `millisecond_to_second`. -/
def millisecond_to_secondChecked (mark : Int) : Option Int :=
  divide_towards_negative_infinityChecked mark 1000

/-- Checked `millisecond_to_second_up`. -/
def millisecond_to_second_upChecked (mark : Int) : Option Int :=
  divide_towards_positive_infinityChecked mark 1000

/-- Checked `microsecond_to_second`. -/
def microsecond_to_secondChecked (mark : Int) : Option Int :=
  divide_towards_negative_infinityChecked mark 1000000

/-- Checked `microsecond_to_second_up`. -/
def microsecond_to_second_upChecked (mark : Int) : Option Int :=
  divide_towards_positive_infinityChecked mark 1000000

/-- Checked `nanosecond_to_second`. -/
def nanosecond_to_secondChecked (mark : Int) : Option Int :=
  divide_towards_negative_infinityChecked mark 1000000000

/-- Checked `nanosecond_to_second_up`. -/
def nanosecond_to_second_upChecked (mark : Int) : Option Int :=
  divide_towards_positive_infinityChecked mark 1000000000

/-- Shared tail of checked `day_to_zyear_and_days`: the `is_leap_year`
comparison and the day-of-year subtraction. -/
def day_to_zyear_tailChecked (zday zyear leap_days zstart ldE : Int) :
    Option (Int × Int × Bool) := do
  let y2 ← cadd zyear 1
  let y3 ← cadd y2 EPOCH_YEAR
  let ld2 ← leap_days_before_yearChecked y3
  let nxt ← csub ld2 ldE
  let doy ← csub zday zstart
  pure (zyear, doy, decide (leap_days < nxt))

/-- Checked recomputation of `leap_days` and `zstart_of_year` after the
one-year correction inside `day_to_zyear_and_days`. -/
def day_to_zyear_correctChecked (zday zyear0 ldE : Int) :
    Option (Int × Int × Bool) := do
  let zyear ← csub zyear0 1
  let y1 ← cadd zyear EPOCH_YEAR
  let ld1 ← leap_days_before_yearChecked y1
  let leap_days ← csub ld1 ldE
  let m1 ← cmul zyear 365
  let zstart ← cadd m1 leap_days
  day_to_zyear_tailChecked zday zyear leap_days zstart ldE

/-- Checked `day_to_zyear_and_days` body for `day ≠ Mark::MIN`. -/
def day_to_zyear_and_days_coreChecked (day : Int) : Option (Int × Int × Bool) := do
  let zday ← csub day 1
  let q ← divide_towards_negative_infinityChecked zday (97 + 400 * 365)
  let t ← cmul q 97
  let w ← csub zday t
  let zyear0 ← divide_towards_negative_infinityChecked w 365
  let y0 ← cadd zyear0 EPOCH_YEAR
  let ld0 ← leap_days_before_yearChecked y0
  let ldE ← leap_days_before_yearChecked EPOCH_YEAR
  let leap_days0 ← csub ld0 ldE
  let m0 ← cmul zyear0 365
  let zstart0 ← cadd m0 leap_days0
  if zday < zstart0 then day_to_zyear_correctChecked zday zyear0 ldE
  else day_to_zyear_tailChecked zday zyear0 leap_days0 zstart0 ldE

/-- Checked `day_to_zyear_and_days` (including its `Mark::MIN` guard). -/
def day_to_zyear_and_daysChecked (day : Int) : Option (Int × Int × Bool) :=
  if day = intMin then do
    let s1 ← cadd day 97
    let s2 ← cadd s1 (400 * 365)
    let r ← day_to_zyear_and_days_coreChecked s2
    let y ← csub r.1 400
    pure (y, r.2.1, r.2.2)
  else day_to_zyear_and_days_coreChecked day

/-- Checked `day_to_month`. -/
def day_to_monthChecked (day : Int) : Option Int := do
  let r ← day_to_zyear_and_daysChecked day
  let month_ends := if r.2.2 then ZMONTH_STARTS_LEAP_YEAR else ZMONTH_STARTS
  let p ← cmul r.1 12
  cadd p (month_scan month_ends r.2.1 12 1 : Int)

/-- Checked `day_to_month_up`. -/
def day_to_month_upChecked (day : Int) : Option Int := do
  let r ← day_to_zyear_and_daysChecked day
  let month_ends := if r.2.2 then ZMONTH_STARTS_LEAP_YEAR else ZMONTH_STARTS
  let p ← cmul r.1 12
  cadd p (month_scan_up month_ends r.2.1 13 1 : Int)


/-! ### Totality of the checked division primitives -/

theorem tmod_nonpos_of_neg {a : Int} (b : Int) (ha : a < 0) : a.tmod b ≤ 0 := by
  have h := Int.tmod_nonneg b (by omega : (0:Int) ≤ -a)
  rw [neg_tmod_left] at h
  omega

/-- For an in-range dividend and a positive divisor, the checked floor
division succeeds and computes `divide_towards_negative_infinity`. -/
theorem dtniChecked_eq (a : Int) {b : Int} (ha : inRange a) (hb : 0 < b) :
    divide_towards_negative_infinityChecked a b =
      some (divide_towards_negative_infinity a b) := by
  obtain ⟨hlo, hhi⟩ := ha
  have h1 := Int.tdiv_add_tmod a b
  have h2 := Int.tmod_lt_of_pos a hb
  have h3 := tmod_lb a hb
  have hcond : ¬(b = 0 ∨ (a = intMin ∧ b = -1)) := by
    unfold intMin
    omega
  unfold divide_towards_negative_infinityChecked divide_towards_negative_infinity
  rw [ctdiv, if_neg hcond, ctmod, if_neg hcond]
  show (if a.tmod b < 0 then csub (a.tdiv b) 1 else pure (a.tdiv b)) = _
  split_ifs with hr
  · -- a leaves a negative remainder, so a < 0 and the quotient is adjusted
    have hneg : a < 0 := by
      by_contra h
      exact absurd (@Int.tmod_nonneg a b (by omega)) (by omega)
    have hq0 : a.tdiv b ≤ 0 := by
      by_contra h
      have h4 : b * 1 ≤ b * a.tdiv b :=
        mul_le_mul_of_nonneg_left (by omega) (by omega)
      omega
    have hb1 : b ≠ 1 := by
      intro h
      rw [h, Int.tmod_one] at hr
      omega
    have h5 : b * a.tdiv b ≤ 2 * a.tdiv b :=
      mul_le_mul_of_nonpos_right (by omega) hq0
    have hin : inRange (a.tdiv b - 1) := by
      unfold inRange intMin intMax at *
      omega
    rw [csub, chk, if_pos hin]
  · -- non-negative remainder: the raw quotient is returned unchanged
    show some (a.tdiv b) = some (a.tdiv b - 0)
    norm_num

/-- For an in-range dividend and a positive divisor, the checked ceiling
division succeeds and computes `divide_towards_positive_infinity`. -/
theorem dtpiChecked_eq (a : Int) {b : Int} (ha : inRange a) (hb : 0 < b) :
    divide_towards_positive_infinityChecked a b =
      some (divide_towards_positive_infinity a b) := by
  obtain ⟨hlo, hhi⟩ := ha
  have h1 := Int.tdiv_add_tmod a b
  have h2 := Int.tmod_lt_of_pos a hb
  have h3 := tmod_lb a hb
  have hcond : ¬(b = 0 ∨ (a = intMin ∧ b = -1)) := by
    unfold intMin
    omega
  unfold divide_towards_positive_infinityChecked divide_towards_positive_infinity
  rw [ctdiv, if_neg hcond, ctmod, if_neg hcond]
  show (if 0 < a.tmod b then cadd (a.tdiv b) 1 else pure (a.tdiv b)) = _
  split_ifs with hr
  · have hpos : 0 < a := by
      rcases lt_trichotomy a 0 with h4 | h4 | h4
      · exact absurd (tmod_nonpos_of_neg b h4) (by omega)
      · subst h4
        rw [Int.zero_tmod] at hr
        omega
      · exact h4
    have hq0 : 0 ≤ a.tdiv b := by
      by_contra h
      have h4 : b * a.tdiv b ≤ b * (-1) :=
        mul_le_mul_of_nonneg_left (by omega) (by omega)
      omega
    have hb1 : b ≠ 1 := by
      intro h
      rw [h, Int.tmod_one] at hr
      omega
    have h5 : 2 * a.tdiv b ≤ b * a.tdiv b :=
      mul_le_mul_of_nonneg_right (by omega) hq0
    have hin : inRange (a.tdiv b + 1) := by
      unfold inRange intMin intMax at *
      omega
    rw [cadd, chk, if_pos hin]
  · show some (a.tdiv b) = some (a.tdiv b + 0)
    norm_num

/-! ### Totality of the checked down-scalers -/

theorem leap_seconds_before_minuteChecked_eq (m : Int) :
    leap_seconds_before_minuteChecked m = some (leap_seconds_before_minute m) := by
  have hb := leap_seconds_bounds m
  show chk (leap_seconds_before_minute m) = _
  rw [chk, if_pos]
  unfold inRange intMin intMax
  omega

theorem minute_to_hourChecked_eq (m : Int) (ha : inRange m) :
    minute_to_hourChecked m = some (minute_to_hour m) :=
  dtniChecked_eq m ha (by norm_num)

theorem minute_to_hour_upChecked_eq (m : Int) (ha : inRange m) :
    minute_to_hour_upChecked m = some (minute_to_hour_up m) :=
  dtpiChecked_eq m ha (by norm_num)

theorem hour_to_dayChecked_eq (h : Int) (ha : inRange h) :
    hour_to_dayChecked h = some (hour_to_day h) := by
  have hv : inRange (divide_towards_negative_infinity h 24 + 1) := by
    rw [dtni_eq h (show (0:Int) < 24 by norm_num)]
    unfold inRange intMin intMax at *
    omega
  unfold hour_to_dayChecked hour_to_day
  rw [dtniChecked_eq h ha (show (0:Int) < 24 by norm_num)]
  simp only [Option.bind_eq_bind, Option.some_bind]
  rw [cadd, chk, if_pos hv]

theorem hour_to_day_upChecked_eq (h : Int) (ha : inRange h) :
    hour_to_day_upChecked h = some (hour_to_day_up h) := by
  have hv : inRange (divide_towards_positive_infinity h 24 + 1) := by
    rw [dtpi_eq h (show (0:Int) < 24 by norm_num)]
    unfold inRange intMin intMax at *
    omega
  unfold hour_to_day_upChecked hour_to_day_up
  rw [dtpiChecked_eq h ha (show (0:Int) < 24 by norm_num)]
  simp only [Option.bind_eq_bind, Option.some_bind]
  rw [cadd, chk, if_pos hv]

theorem millisecond_to_secondChecked_eq (m : Int) (ha : inRange m) :
    millisecond_to_secondChecked m = some (millisecond_to_second m) :=
  dtniChecked_eq m ha (by norm_num)

theorem millisecond_to_second_upChecked_eq (m : Int) (ha : inRange m) :
    millisecond_to_second_upChecked m = some (millisecond_to_second_up m) :=
  dtpiChecked_eq m ha (by norm_num)

theorem microsecond_to_secondChecked_eq (m : Int) (ha : inRange m) :
    microsecond_to_secondChecked m = some (microsecond_to_second m) :=
  dtniChecked_eq m ha (by norm_num)

theorem microsecond_to_second_upChecked_eq (m : Int) (ha : inRange m) :
    microsecond_to_second_upChecked m = some (microsecond_to_second_up m) :=
  dtpiChecked_eq m ha (by norm_num)

theorem nanosecond_to_secondChecked_eq (m : Int) (ha : inRange m) :
    nanosecond_to_secondChecked m = some (nanosecond_to_second m) :=
  dtniChecked_eq m ha (by norm_num)

theorem nanosecond_to_second_upChecked_eq (m : Int) (ha : inRange m) :
    nanosecond_to_second_upChecked m = some (nanosecond_to_second_up m) :=
  dtpiChecked_eq m ha (by norm_num)

theorem month_to_year_coreChecked_eq (m : Int) (ha : inRange m) (hne : m ≠ intMin) :
    month_to_year_coreChecked m =
      some (divide_towards_negative_infinity (m - 1) 12 + EPOCH_YEAR) := by
  have h1 : inRange (m - 1) := by
    unfold inRange intMin intMax at *
    omega
  have h2 : inRange (divide_towards_negative_infinity (m - 1) 12 + EPOCH_YEAR) := by
    rw [dtni_eq (m - 1) (show (0:Int) < 12 by norm_num)]
    unfold EPOCH_YEAR inRange intMin intMax at *
    omega
  unfold month_to_year_coreChecked
  rw [csub, chk, if_pos h1]
  simp only [Option.bind_eq_bind, Option.some_bind]
  rw [dtniChecked_eq (m - 1) h1 (show (0:Int) < 12 by norm_num)]
  simp only [Option.bind_eq_bind, Option.some_bind]
  rw [cadd, chk, if_pos h2]

theorem month_to_yearChecked_eq (m : Int) (ha : inRange m) :
    month_to_yearChecked m = some (month_to_year m) := by
  unfold month_to_yearChecked month_to_year
  split_ifs with h
  · subst h
    rw [cadd, chk, if_pos (by decide)]
    simp only [Option.bind_eq_bind, Option.some_bind]
    rw [month_to_year_coreChecked_eq (intMin + 12) (by decide) (by decide)]
    simp only [Option.bind_eq_bind, Option.some_bind]
    rw [csub, chk, if_pos (by decide)]
  · rw [month_to_year_coreChecked_eq m ha h]

theorem month_to_year_up_coreChecked_eq (m : Int) (ha : inRange m) (hne : m ≠ intMin) :
    month_to_year_up_coreChecked m =
      some (divide_towards_positive_infinity (m - 1) 12 + EPOCH_YEAR) := by
  have h1 : inRange (m - 1) := by
    unfold inRange intMin intMax at *
    omega
  have h2 : inRange (divide_towards_positive_infinity (m - 1) 12 + EPOCH_YEAR) := by
    rw [dtpi_eq (m - 1) (show (0:Int) < 12 by norm_num)]
    unfold EPOCH_YEAR inRange intMin intMax at *
    omega
  unfold month_to_year_up_coreChecked
  rw [csub, chk, if_pos h1]
  simp only [Option.bind_eq_bind, Option.some_bind]
  rw [dtpiChecked_eq (m - 1) h1 (show (0:Int) < 12 by norm_num)]
  simp only [Option.bind_eq_bind, Option.some_bind]
  rw [cadd, chk, if_pos h2]

theorem month_to_year_upChecked_eq (m : Int) (ha : inRange m) :
    month_to_year_upChecked m = some (month_to_year_up m) := by
  unfold month_to_year_upChecked month_to_year_up
  split_ifs with h
  · subst h
    rw [cadd, chk, if_pos (by decide)]
    simp only [Option.bind_eq_bind, Option.some_bind]
    rw [month_to_year_up_coreChecked_eq (intMin + 12) (by decide) (by decide)]
    simp only [Option.bind_eq_bind, Option.some_bind]
    rw [csub, chk, if_pos (by decide)]
  · rw [month_to_year_up_coreChecked_eq m ha h]

theorem leap_days_before_year_coreChecked_eq (y : Int) (ha : inRange y)
    (hne : y ≠ intMin) :
    leap_days_before_year_coreChecked y = some (leap_days_before_year_core y) := by
  have h1 : inRange (y - 1) := by
    unfold inRange intMin intMax at *
    omega
  have e4 := dtni_eq (y - 1) (show (0:Int) < 4 by norm_num)
  have e100 := dtni_eq (y - 1) (show (0:Int) < 100 by norm_num)
  have e400 := dtni_eq (y - 1) (show (0:Int) < 400 by norm_num)
  have h2 : inRange (divide_towards_negative_infinity (y - 1) 4
      - divide_towards_negative_infinity (y - 1) 100) := by
    rw [e4, e100]
    unfold inRange intMin intMax at *
    omega
  have h3 : inRange (divide_towards_negative_infinity (y - 1) 4
      - divide_towards_negative_infinity (y - 1) 100
      + divide_towards_negative_infinity (y - 1) 400) := by
    rw [e4, e100, e400]
    unfold inRange intMin intMax at *
    omega
  show _ = some (divide_towards_negative_infinity (y - 1) 4
      - divide_towards_negative_infinity (y - 1) 100
      + divide_towards_negative_infinity (y - 1) 400)
  unfold leap_days_before_year_coreChecked
  rw [csub, chk, if_pos h1]
  simp only [Option.bind_eq_bind, Option.some_bind]
  rw [dtniChecked_eq (y - 1) h1 (show (0:Int) < 4 by norm_num)]
  simp only [Option.bind_eq_bind, Option.some_bind]
  rw [dtniChecked_eq (y - 1) h1 (show (0:Int) < 100 by norm_num)]
  simp only [Option.bind_eq_bind, Option.some_bind]
  rw [dtniChecked_eq (y - 1) h1 (show (0:Int) < 400 by norm_num)]
  simp only [Option.bind_eq_bind, Option.some_bind]
  rw [csub, chk, if_pos h2]
  simp only [Option.bind_eq_bind, Option.some_bind]
  rw [cadd, chk, if_pos h3]

theorem leap_days_before_yearChecked_eq (y : Int) (ha : inRange y) :
    leap_days_before_yearChecked y = some (leap_days_before_year y) := by
  unfold leap_days_before_yearChecked leap_days_before_year
  split_ifs with h
  · subst h
    rw [cadd, chk, if_pos (by decide)]
    simp only [Option.bind_eq_bind, Option.some_bind]
    rw [leap_days_before_year_coreChecked_eq (intMin + 400) (by decide) (by decide)]
    simp only [Option.bind_eq_bind, Option.some_bind]
    rw [csub, chk, if_pos (by decide)]
  · rw [leap_days_before_year_coreChecked_eq y ha h]

theorem second_to_minuteChecked_eq (s : Int) (ha : inRange s) :
    second_to_minuteChecked s = some (second_to_minute s) := by
  have he := dtni_eq s (show (0:Int) < 60 by norm_num)
  have hb := leap_seconds_bounds (divide_towards_negative_infinity s 60)
  have hlow : divide_towards_negative_infinity s 60 < -14464800 →
      leap_seconds_before_minute (divide_towards_negative_infinity s 60) = -22 :=
    fun hx => leap_seconds_low hx
  have hhigh : 8942400 ≤ divide_towards_negative_infinity s 60 →
      leap_seconds_before_minute (divide_towards_negative_infinity s 60) = 5 :=
    fun hx => leap_seconds_high hx
  have hd : inRange (s - leap_seconds_before_minute
      (divide_towards_negative_infinity s 60)) := by
    rw [he] at hb hlow hhigh ⊢
    unfold inRange intMin intMax at *
    omega
  unfold second_to_minuteChecked second_to_minute
  rw [dtniChecked_eq s ha (show (0:Int) < 60 by norm_num)]
  simp only [Option.bind_eq_bind, Option.some_bind]
  rw [leap_seconds_before_minuteChecked_eq]
  simp only [Option.bind_eq_bind, Option.some_bind]
  rw [csub, chk, if_pos hd]
  simp only [Option.bind_eq_bind, Option.some_bind]
  rw [dtniChecked_eq _ hd (show (0:Int) < 60 by norm_num)]

theorem second_to_minute_upChecked_eq (s : Int) (ha : inRange s) :
    second_to_minute_upChecked s = some (second_to_minute_up s) := by
  have he := dtpi_eq s (show (0:Int) < 60 by norm_num)
  have hb := leap_seconds_bounds (divide_towards_positive_infinity s 60)
  have hlow : divide_towards_positive_infinity s 60 < -14464800 →
      leap_seconds_before_minute (divide_towards_positive_infinity s 60) = -22 :=
    fun hx => leap_seconds_low hx
  have hhigh : 8942400 ≤ divide_towards_positive_infinity s 60 →
      leap_seconds_before_minute (divide_towards_positive_infinity s 60) = 5 :=
    fun hx => leap_seconds_high hx
  have hd : inRange (s - leap_seconds_before_minute
      (divide_towards_positive_infinity s 60)) := by
    rw [he] at hb hlow hhigh ⊢
    unfold inRange intMin intMax at *
    omega
  unfold second_to_minute_upChecked second_to_minute_up
  rw [dtpiChecked_eq s ha (show (0:Int) < 60 by norm_num)]
  simp only [Option.bind_eq_bind, Option.some_bind]
  rw [leap_seconds_before_minuteChecked_eq]
  simp only [Option.bind_eq_bind, Option.some_bind]
  rw [csub, chk, if_pos hd]
  simp only [Option.bind_eq_bind, Option.some_bind]
  rw [dtpiChecked_eq _ hd (show (0:Int) < 60 by norm_num)]

/-! ### Closed form of `month_to_day` -/

/-- Closed form of `month_to_day`: the start of the month's year on the day
lane, plus the cumulative month offset, plus one leap-day correction for
March-onwards months of leap years. -/
theorem month_to_day_eq (month : Int) :
    month_to_day month =
      zstart_of_zyear ((month - 1) / 12) + 1
        + ZMONTH_STARTS.getD ((month - 1) % 12).toNat 0
        + (if 2 ≤ (month - 1) % 12 ∧ gregLeap ((month - 1) / 12 + 2000) then 1 else 0) := by
  have h1 := Int.tdiv_add_tmod (month - 1) 12
  have h2 := Int.tmod_lt_of_pos (month - 1) (show (0:Int) < 12 by norm_num)
  have h3 := tmod_lb (month - 1) (show (0:Int) < 12 by norm_num)
  have h4 : 0 ≤ month - 1 → 0 ≤ (month - 1).tmod 12 :=
    fun hx => Int.tmod_nonneg 12 hx
  have h5 : month - 1 < 0 → (month - 1).tmod 12 ≤ 0 :=
    fun hx => tmod_nonpos_of_neg 12 hx
  have hzy : (month - 1).tmod 12 + (if (month - 1).tmod 12 < 0 then (12:Int) else 0)
      = (month - 1) % 12 := by
    split_ifs <;> omega
  have hdv := dtni_eq (month - 1) (show (0:Int) < 12 by norm_num)
  show divide_towards_negative_infinity (month - 1) 12 * 365
      + ZMONTH_STARTS.getD
          ((month - 1).tmod 12 + if (month - 1).tmod 12 < 0 then (12:Int) else 0).toNat 0
      - leap_days_before_year EPOCH_YEAR
      + leap_days_before_year
          ((divide_towards_negative_infinity (month - 1) 12
            + if 2 ≤ ((month - 1).tmod 12 + if (month - 1).tmod 12 < 0 then (12:Int) else 0)
              then 1 else 0) + EPOCH_YEAR)
      + 1 = _
  rw [hzy, hdv]
  have h12 : (month - 1) % 12 = 0 ∨ (month - 1) % 12 = 1 ∨ (month - 1) % 12 = 2 ∨
      (month - 1) % 12 = 3 ∨ (month - 1) % 12 = 4 ∨ (month - 1) % 12 = 5 ∨
      (month - 1) % 12 = 6 ∨ (month - 1) % 12 = 7 ∨ (month - 1) % 12 = 8 ∨
      (month - 1) % 12 = 9 ∨ (month - 1) % 12 = 10 ∨ (month - 1) % 12 = 11 := by
    omega
  rcases h12 with h | h | h | h | h | h | h | h | h | h | h | h
  · rw [h, show ((0 : Int).toNat) = 0 from rfl,
      show ZMONTH_STARTS.getD 0 0 = 0 from rfl]
    simp only [leap_days_before_year_eq, zstart_of_zyear_eq, EPOCH_YEAR, gregLeap]
    split_ifs <;> omega
  · rw [h, show ((1 : Int).toNat) = 1 from rfl,
      show ZMONTH_STARTS.getD 1 0 = 31 from rfl]
    simp only [leap_days_before_year_eq, zstart_of_zyear_eq, EPOCH_YEAR, gregLeap]
    split_ifs <;> omega
  · rw [h, show ((2 : Int).toNat) = 2 from rfl,
      show ZMONTH_STARTS.getD 2 0 = 59 from rfl]
    simp only [leap_days_before_year_eq, zstart_of_zyear_eq, EPOCH_YEAR, gregLeap]
    split_ifs <;> omega
  · rw [h, show ((3 : Int).toNat) = 3 from rfl,
      show ZMONTH_STARTS.getD 3 0 = 90 from rfl]
    simp only [leap_days_before_year_eq, zstart_of_zyear_eq, EPOCH_YEAR, gregLeap]
    split_ifs <;> omega
  · rw [h, show ((4 : Int).toNat) = 4 from rfl,
      show ZMONTH_STARTS.getD 4 0 = 120 from rfl]
    simp only [leap_days_before_year_eq, zstart_of_zyear_eq, EPOCH_YEAR, gregLeap]
    split_ifs <;> omega
  · rw [h, show ((5 : Int).toNat) = 5 from rfl,
      show ZMONTH_STARTS.getD 5 0 = 151 from rfl]
    simp only [leap_days_before_year_eq, zstart_of_zyear_eq, EPOCH_YEAR, gregLeap]
    split_ifs <;> omega
  · rw [h, show ((6 : Int).toNat) = 6 from rfl,
      show ZMONTH_STARTS.getD 6 0 = 181 from rfl]
    simp only [leap_days_before_year_eq, zstart_of_zyear_eq, EPOCH_YEAR, gregLeap]
    split_ifs <;> omega
  · rw [h, show ((7 : Int).toNat) = 7 from rfl,
      show ZMONTH_STARTS.getD 7 0 = 212 from rfl]
    simp only [leap_days_before_year_eq, zstart_of_zyear_eq, EPOCH_YEAR, gregLeap]
    split_ifs <;> omega
  · rw [h, show ((8 : Int).toNat) = 8 from rfl,
      show ZMONTH_STARTS.getD 8 0 = 243 from rfl]
    simp only [leap_days_before_year_eq, zstart_of_zyear_eq, EPOCH_YEAR, gregLeap]
    split_ifs <;> omega
  · rw [h, show ((9 : Int).toNat) = 9 from rfl,
      show ZMONTH_STARTS.getD 9 0 = 273 from rfl]
    simp only [leap_days_before_year_eq, zstart_of_zyear_eq, EPOCH_YEAR, gregLeap]
    split_ifs <;> omega
  · rw [h, show ((10 : Int).toNat) = 10 from rfl,
      show ZMONTH_STARTS.getD 10 0 = 304 from rfl]
    simp only [leap_days_before_year_eq, zstart_of_zyear_eq, EPOCH_YEAR, gregLeap]
    split_ifs <;> omega
  · rw [h, show ((11 : Int).toNat) = 11 from rfl,
      show ZMONTH_STARTS.getD 11 0 = 334 from rfl]
    simp only [leap_days_before_year_eq, zstart_of_zyear_eq, EPOCH_YEAR, gregLeap]
    split_ifs <;> omega

/-! ### Correctness of the estimate in `day_to_zyear_and_days` -/

/-- The average-year estimate never undershoots by a full year: the zero-based
day always precedes the start of the year after the estimated one. -/
theorem zyear_estimate_ub (E : Int) :
    E < zstart_of_zyear ((E - E / 146097 * 97) / 365 + 1) := by
  rw [zstart_of_zyear_eq]
  omega

/-- The average-year estimate overshoots by at most one year. -/
theorem zyear_estimate_lb (E : Int) :
    zstart_of_zyear ((E - E / 146097 * 97) / 365 - 1) ≤ E := by
  rw [zstart_of_zyear_eq]
  omega

/-- Rewriting helper: the `zstart_of_year` expression inside
`day_to_zyear_and_days` is `zstart_of_zyear`. -/
theorem zstart_shape (y : Int) :
    y * 365 + (leap_days_before_year (y + EPOCH_YEAR) - leap_days_before_year EPOCH_YEAR)
      = zstart_of_zyear y := by
  unfold zstart_of_zyear epoch_leap_days
  ring

/-- `day_to_zyear_and_days_core` brackets its input day between the exact
start of the returned year and the start of the next year, returns the
day-of-year offset, and flags exactly the Gregorian leap years. -/
theorem day_to_zyear_and_days_core_spec (day : Int) :
    zstart_of_zyear (day_to_zyear_and_days_core day).1 ≤ day - 1 ∧
    day - 1 < zstart_of_zyear ((day_to_zyear_and_days_core day).1 + 1) ∧
    (day_to_zyear_and_days_core day).2.1
      = day - 1 - zstart_of_zyear (day_to_zyear_and_days_core day).1 ∧
    ((day_to_zyear_and_days_core day).2.2 = true ↔
      gregLeap ((day_to_zyear_and_days_core day).1 + 2000)) := by
  have hlb := zyear_estimate_lb (day - 1)
  have hub := zyear_estimate_ub (day - 1)
  simp only [day_to_zyear_and_days_core,
    show (97 + 400 * 365 : Int) = 146097 by norm_num,
    dtni_eq (day - 1) (show (0:Int) < 146097 by norm_num),
    dtni_eq ((day - 1) - (day - 1) / 146097 * 97) (show (0:Int) < 365 by norm_num),
    zstart_shape]
  split_ifs with hbr
  · refine ⟨by omega, ?_, rfl, ?_⟩
    · simp only [sub_add_cancel]
      omega
    · simp only [decide_eq_true_eq]
      rw [leap_days_before_year_eq, leap_days_before_year_eq, leap_days_before_year_eq]
      unfold gregLeap EPOCH_YEAR
      constructor
      · intro hx
        omega
      · intro hx
        omega
  · refine ⟨by omega, by omega, rfl, ?_⟩
    simp only [decide_eq_true_eq]
    rw [leap_days_before_year_eq, leap_days_before_year_eq, leap_days_before_year_eq]
    unfold gregLeap EPOCH_YEAR
    constructor
    · intro hx
      omega
    · intro hx
      omega

/-- The Gregorian cycle: shifting a zero-based year by 400 shifts its start
by exactly 146097 days. -/
theorem zstart_of_zyear_cycle (y : Int) :
    zstart_of_zyear (y - 400) = zstart_of_zyear y - 146097 := by
  rw [zstart_of_zyear_eq, zstart_of_zyear_eq]
  omega

theorem gregLeap_cycle (y : Int) : gregLeap (y - 400) ↔ gregLeap y := by
  unfold gregLeap
  omega

/-- `day_to_zyear_and_days` (with the `Mark::MIN` guard) brackets its day
between the exact starts of the returned and the following year, returns the
day-of-year offset, and flags exactly the Gregorian leap years. -/
theorem day_to_zyear_and_days_spec (day : Int) :
    zstart_of_zyear (day_to_zyear_and_days day).1 ≤ day - 1 ∧
    day - 1 < zstart_of_zyear ((day_to_zyear_and_days day).1 + 1) ∧
    (day_to_zyear_and_days day).2.1
      = day - 1 - zstart_of_zyear (day_to_zyear_and_days day).1 ∧
    ((day_to_zyear_and_days day).2.2 = true ↔
      gregLeap ((day_to_zyear_and_days day).1 + 2000)) := by
  unfold day_to_zyear_and_days
  split_ifs with h
  · obtain ⟨h1, h2, h3, h4⟩ := day_to_zyear_and_days_core_spec (day + 97 + 400 * 365)
    have hc1 := zstart_of_zyear_cycle (day_to_zyear_and_days_core (day + 97 + 400 * 365)).1
    have hc2 := zstart_of_zyear_cycle
      ((day_to_zyear_and_days_core (day + 97 + 400 * 365)).1 + 1)
    have hc3 := gregLeap_cycle
      ((day_to_zyear_and_days_core (day + 97 + 400 * 365)).1 + 2000)
    simp only []
    refine ⟨?_, ?_, ?_, ?_⟩
    · show zstart_of_zyear ((day_to_zyear_and_days_core (day + 97 + 400 * 365)).1 - 400)
        ≤ day - 1
      rw [hc1]
      omega
    · show day - 1 < zstart_of_zyear
        ((day_to_zyear_and_days_core (day + 97 + 400 * 365)).1 - 400 + 1)
      rw [show (day_to_zyear_and_days_core (day + 97 + 400 * 365)).1 - 400 + 1
        = (day_to_zyear_and_days_core (day + 97 + 400 * 365)).1 + 1 - 400 by ring, hc2]
      omega
    · show (day_to_zyear_and_days_core (day + 97 + 400 * 365)).2.1
        = day - 1 - zstart_of_zyear
          ((day_to_zyear_and_days_core (day + 97 + 400 * 365)).1 - 400)
      rw [hc1]
      omega
    · show ((day_to_zyear_and_days_core (day + 97 + 400 * 365)).2.2 = true ↔
        gregLeap ((day_to_zyear_and_days_core (day + 97 + 400 * 365)).1 - 400 + 2000))
      rw [show (day_to_zyear_and_days_core (day + 97 + 400 * 365)).1 - 400 + 2000
        = (day_to_zyear_and_days_core (day + 97 + 400 * 365)).1 + 2000 - 400 by ring, hc3]
      exact h4
  · exact day_to_zyear_and_days_core_spec day

/-! ### The month scans: generic bounds and monotonicity -/

theorem month_scan_ge (ends : List Int) (zd : Int) :
    ∀ fuel month, month ≤ month_scan ends zd fuel month
  | 0, month => Nat.le_refl month
  | fuel + 1, month => by
    rw [month_scan]
    split
    · exact Nat.le_trans (by omega) (month_scan_ge ends zd fuel (month + 1))
    · exact Nat.le_refl month

theorem month_scan_le (ends : List Int) (zd : Int) :
    ∀ fuel month, month ≤ ends.length → month_scan ends zd fuel month ≤ ends.length
  | 0, month, h => h
  | fuel + 1, month, h => by
    rw [month_scan]
    split
    · rename_i hc
      exact month_scan_le ends zd fuel (month + 1) (by omega)
    · exact h

theorem month_scan_mono (ends : List Int) {zd zd' : Int} (h : zd ≤ zd') :
    ∀ fuel month, month_scan ends zd fuel month ≤ month_scan ends zd' fuel month
  | 0, month => Nat.le_refl month
  | fuel + 1, month => by
    rw [month_scan, month_scan]
    split
    · rename_i hc
      rw [if_pos ⟨hc.1, le_trans hc.2 h⟩]
      exact month_scan_mono ends h fuel (month + 1)
    · split
      · exact Nat.le_trans (by omega) (month_scan_ge ends zd' fuel (month + 1))
      · exact Nat.le_refl month

theorem month_scan_up_ge (ends : List Int) (zd : Int) :
    ∀ fuel month, month ≤ month_scan_up ends zd fuel month
  | 0, month => Nat.le_refl month
  | fuel + 1, month => by
    rw [month_scan_up]
    split
    · exact Nat.le_trans (by omega) (month_scan_up_ge ends zd fuel (month + 1))
    · exact Nat.le_refl month

theorem month_scan_up_le (ends : List Int) (zd : Int) :
    ∀ fuel month, month ≤ ends.length + 1 → month_scan_up ends zd fuel month ≤ ends.length + 1
  | 0, month, h => h
  | fuel + 1, month, h => by
    rw [month_scan_up]
    split
    · rename_i hc
      exact month_scan_up_le ends zd fuel (month + 1) (by omega)
    · exact h

theorem month_scan_up_mono (ends : List Int) {zd zd' : Int} (h : zd ≤ zd') :
    ∀ fuel month, month_scan_up ends zd fuel month ≤ month_scan_up ends zd' fuel month
  | 0, month => Nat.le_refl month
  | fuel + 1, month => by
    rw [month_scan_up, month_scan_up]
    split
    · rename_i hc
      rw [if_pos ⟨hc.1, lt_of_lt_of_le hc.2 h⟩]
      exact month_scan_up_mono ends h fuel (month + 1)
    · split
      · exact Nat.le_trans (by omega) (month_scan_up_ge ends zd' fuel (month + 1))
      · exact Nat.le_refl month

/-! ### `zstart_of_zyear` growth -/

theorem zstart_of_zyear_succ (y : Int) :
    zstart_of_zyear (y + 1) =
      zstart_of_zyear y + 365 + (if gregLeap (y + 2000) then 1 else 0) := by
  rw [zstart_of_zyear_eq, zstart_of_zyear_eq]
  unfold gregLeap
  split_ifs <;> omega

theorem zstart_of_zyear_mono {a b : Int} (h : a ≤ b) :
    zstart_of_zyear a ≤ zstart_of_zyear b := by
  rw [zstart_of_zyear_eq, zstart_of_zyear_eq]
  omega

theorem zstart_of_zyear_strict (y : Int) :
    zstart_of_zyear y + 365 ≤ zstart_of_zyear (y + 1) := by
  rw [zstart_of_zyear_eq, zstart_of_zyear_eq]
  omega

/-! ### Consecutive days decompose consecutively -/

/-- Stepping one day either stays in the same year with the next day-of-year,
or rolls over to day zero of the next year. -/
theorem day_to_zyear_and_days_succ (day : Int) :
    ((day_to_zyear_and_days (day + 1)).1 = (day_to_zyear_and_days day).1 ∧
      (day_to_zyear_and_days (day + 1)).2.1 = (day_to_zyear_and_days day).2.1 + 1 ∧
      (day_to_zyear_and_days (day + 1)).2.2 = (day_to_zyear_and_days day).2.2) ∨
    ((day_to_zyear_and_days (day + 1)).1 = (day_to_zyear_and_days day).1 + 1 ∧
      (day_to_zyear_and_days (day + 1)).2.1 = 0) := by
  obtain ⟨h1, h2, h3, h4⟩ := day_to_zyear_and_days_spec day
  obtain ⟨h1', h2', h3', h4'⟩ := day_to_zyear_and_days_spec (day + 1)
  have hle : (day_to_zyear_and_days day).1 ≤ (day_to_zyear_and_days (day + 1)).1 := by
    by_contra hx
    have := zstart_of_zyear_mono
      (show (day_to_zyear_and_days (day + 1)).1 + 1 ≤ (day_to_zyear_and_days day).1 by omega)
    omega
  have hge : (day_to_zyear_and_days (day + 1)).1 ≤ (day_to_zyear_and_days day).1 + 1 := by
    by_contra hx
    have ha := zstart_of_zyear_mono
      (show (day_to_zyear_and_days day).1 + 1 + 1 ≤ (day_to_zyear_and_days (day + 1)).1 by omega)
    have hb := zstart_of_zyear_strict ((day_to_zyear_and_days day).1 + 1)
    omega
  rcases eq_or_lt_of_le hle with heq | hlt
  · left
    refine ⟨heq.symm, by rw [h3', h3, heq]; omega, ?_⟩
    rw [Bool.eq_iff_iff, h4', h4, heq]
  · right
    have heq : (day_to_zyear_and_days (day + 1)).1 = (day_to_zyear_and_days day).1 + 1 := by
      omega
    refine ⟨heq, ?_⟩
    rw [h3', heq]
    have := zstart_of_zyear_mono
      (show (day_to_zyear_and_days day).1 + 1 ≤ (day_to_zyear_and_days (day + 1)).1 by omega)
    omega

theorem day_to_month_mono (day : Int) : day_to_month day ≤ day_to_month (day + 1) := by
  have hZ0 : ZMONTH_STARTS.length = 12 := rfl
  have hZL : ZMONTH_STARTS_LEAP_YEAR.length = 12 := rfl
  simp only [day_to_month]
  rcases day_to_zyear_and_days_succ day with ⟨e1, e2, e3⟩ | ⟨e1, e2⟩
  · rw [e1, e2, e3]
    have hmono := month_scan_mono
      (if (day_to_zyear_and_days day).2.2 then ZMONTH_STARTS_LEAP_YEAR else ZMONTH_STARTS)
      (show (day_to_zyear_and_days day).2.1 ≤ (day_to_zyear_and_days day).2.1 + 1 by omega)
      12 1
    omega
  · rw [e1, e2]
    have hub := month_scan_le
      (if (day_to_zyear_and_days day).2.2 then ZMONTH_STARTS_LEAP_YEAR else ZMONTH_STARTS)
      (day_to_zyear_and_days day).2.1 12 1 (by split <;> omega)
    have hlb := month_scan_ge
      (if (day_to_zyear_and_days (day + 1)).2.2 then ZMONTH_STARTS_LEAP_YEAR
        else ZMONTH_STARTS) 0 12 1
    have hlen : (if (day_to_zyear_and_days day).2.2 then ZMONTH_STARTS_LEAP_YEAR
        else ZMONTH_STARTS).length = 12 := by
      split <;> omega
    omega

theorem day_to_month_up_mono (day : Int) :
    day_to_month_up day ≤ day_to_month_up (day + 1) := by
  have hZ0 : ZMONTH_STARTS.length = 12 := rfl
  have hZL : ZMONTH_STARTS_LEAP_YEAR.length = 12 := rfl
  simp only [day_to_month_up]
  rcases day_to_zyear_and_days_succ day with ⟨e1, e2, e3⟩ | ⟨e1, e2⟩
  · rw [e1, e2, e3]
    have hmono := month_scan_up_mono
      (if (day_to_zyear_and_days day).2.2 then ZMONTH_STARTS_LEAP_YEAR else ZMONTH_STARTS)
      (show (day_to_zyear_and_days day).2.1 ≤ (day_to_zyear_and_days day).2.1 + 1 by omega)
      13 1
    omega
  · rw [e1, e2]
    have hub := month_scan_up_le
      (if (day_to_zyear_and_days day).2.2 then ZMONTH_STARTS_LEAP_YEAR else ZMONTH_STARTS)
      (day_to_zyear_and_days day).2.1 13 1 (by split <;> omega)
    have hlb := month_scan_up_ge
      (if (day_to_zyear_and_days (day + 1)).2.2 then ZMONTH_STARTS_LEAP_YEAR
        else ZMONTH_STARTS) 0 13 1
    have hlen : (if (day_to_zyear_and_days day).2.2 then ZMONTH_STARTS_LEAP_YEAR
        else ZMONTH_STARTS).length = 12 := by
      split <;> omega
    omega

/-! ### The rounding primitives compute mathematical floor and ceiling -/

theorem ediv_eq_ratFloor (n : Int) {b : Int} (hb : 0 < b) :
    (⌊(n : ℚ) / (b : ℚ)⌋ : Int) = n / b := by
  have hbn : ((b.toNat : ℤ)) = b := Int.toNat_of_nonneg (le_of_lt hb)
  have h := Rat.floor_intCast_div_natCast n b.toNat
  rw [show ((b.toNat : ℕ) : ℚ) = ((b : ℤ) : ℚ) by exact_mod_cast hbn, hbn] at h
  exact_mod_cast h

theorem dtni_ratFloor (a : Int) {b : Int} (hb : 0 < b) :
    divide_towards_negative_infinity a b = ⌊(a : ℚ) / (b : ℚ)⌋ := by
  rw [dtni_eq a hb, ediv_eq_ratFloor a hb]

theorem dtpi_ratCeil (a : Int) {b : Int} (hb : 0 < b) :
    divide_towards_positive_infinity a b = ⌈(a : ℚ) / (b : ℚ)⌉ := by
  rw [dtpi_eq a hb]
  have h : ((a : ℚ)) / (b : ℚ) = -(((-a : ℤ) : ℚ) / (b : ℚ)) := by
    push_cast
    ring
  rw [h, Int.ceil_neg, ediv_eq_ratFloor (-a) hb]

/-! ### Monotonicity of the leap-second aware scalers -/

theorem minute_to_second_mono (m : Int) :
    minute_to_second m ≤ minute_to_second (m + 1) := by
  unfold minute_to_second
  have := leap_seconds_mono (show m ≤ m + 1 by omega)
  omega

theorem second_to_minute_mono (s : Int) :
    second_to_minute s ≤ second_to_minute (s + 1) := by
  unfold second_to_minute
  rw [dtni_eq s (show (0:Int) < 60 by norm_num),
    dtni_eq (s + 1) (show (0:Int) < 60 by norm_num)]
  rcases show (s + 1) / 60 = s / 60 ∨ (s + 1) / 60 = s / 60 + 1 by omega with hc | hc
  · rw [hc, dtni_eq _ (show (0:Int) < 60 by norm_num),
      dtni_eq _ (show (0:Int) < 60 by norm_num)]
    omega
  · rw [hc, dtni_eq _ (show (0:Int) < 60 by norm_num),
      dtni_eq _ (show (0:Int) < 60 by norm_num)]
    have h1 := leap_seconds_mono (show s / 60 ≤ s / 60 + 1 by omega)
    have h2 : leap_seconds_before_minute (s / 60 + 1)
        ≤ leap_seconds_before_minute (s / 60) + 1 := by
      have := leap_seconds_step (s / 60)
      split_ifs at this <;> omega
    omega

theorem second_to_minute_up_mono (s : Int) :
    second_to_minute_up s ≤ second_to_minute_up (s + 1) := by
  unfold second_to_minute_up
  rw [dtpi_eq s (show (0:Int) < 60 by norm_num),
    dtpi_eq (s + 1) (show (0:Int) < 60 by norm_num)]
  rcases show -(-(s + 1) / 60) = -(-s / 60) ∨ -(-(s + 1) / 60) = -(-s / 60) + 1 by omega
    with hc | hc
  · rw [hc, dtpi_eq _ (show (0:Int) < 60 by norm_num),
      dtpi_eq _ (show (0:Int) < 60 by norm_num)]
    omega
  · rw [hc, dtpi_eq _ (show (0:Int) < 60 by norm_num),
      dtpi_eq _ (show (0:Int) < 60 by norm_num)]
    have h1 := leap_seconds_mono (show -(-s / 60) ≤ -(-s / 60) + 1 by omega)
    have h2 : leap_seconds_before_minute (-(-s / 60) + 1)
        ≤ leap_seconds_before_minute (-(-s / 60)) + 1 := by
      have := leap_seconds_step (-(-s / 60))
      split_ifs at this <;> omega
    omega

/-! ### Month lengths -/

/-- The difference of `month_to_day` across one month is that month's length:
28/29 for February according to the Gregorian leap rule of its year, and the
fixed lengths otherwise. -/
theorem month_length_eq (month : Int) :
    month_to_day (month + 1) - month_to_day month =
      (if (month - 1) % 12 = 1 then
        (if gregLeap ((month - 1) / 12 + 2000) then 29 else 28)
      else [(31:Int), 28, 31, 30, 31, 30, 31, 31, 30, 31, 30, 31].getD ((month - 1) % 12).toNat 0) := by
  rw [month_to_day_eq month, month_to_day_eq (month + 1)]
  have h12 : (month - 1) % 12 = 0 ∨ (month - 1) % 12 = 1 ∨ (month - 1) % 12 = 2 ∨
      (month - 1) % 12 = 3 ∨ (month - 1) % 12 = 4 ∨ (month - 1) % 12 = 5 ∨
      (month - 1) % 12 = 6 ∨ (month - 1) % 12 = 7 ∨ (month - 1) % 12 = 8 ∨
      (month - 1) % 12 = 9 ∨ (month - 1) % 12 = 10 ∨ (month - 1) % 12 = 11 := by
    omega
  rcases h12 with h | h | h | h | h | h | h | h | h | h | h | h
  · have e1 : (month + 1 - 1) / 12 = (month - 1) / 12 := by omega
    have e2 : (month + 1 - 1) % 12 = 1 := by omega
    rw [h, e1, e2,
      show ZMONTH_STARTS.getD ((1 : Int).toNat) 0 = 31 from rfl,
      show ZMONTH_STARTS.getD ((0 : Int).toNat) 0 = 0 from rfl,
      show ([(31:Int), 28, 31, 30, 31, 30, 31, 31, 30, 31, 30, 31].getD ((0 : Int).toNat) 0) = 31 from rfl]
    norm_num
    all_goals first
    | omega
    | (split_ifs <;> omega)
  · have e1 : (month + 1 - 1) / 12 = (month - 1) / 12 := by omega
    have e2 : (month + 1 - 1) % 12 = 2 := by omega
    rw [h, e1, e2,
      show ZMONTH_STARTS.getD ((2 : Int).toNat) 0 = 59 from rfl,
      show ZMONTH_STARTS.getD ((1 : Int).toNat) 0 = 31 from rfl,
      show ([(31:Int), 28, 31, 30, 31, 30, 31, 31, 30, 31, 30, 31].getD ((1 : Int).toNat) 0) = 28 from rfl]
    norm_num
    all_goals first
    | omega
    | (split_ifs <;> omega)
  · have e1 : (month + 1 - 1) / 12 = (month - 1) / 12 := by omega
    have e2 : (month + 1 - 1) % 12 = 3 := by omega
    rw [h, e1, e2,
      show ZMONTH_STARTS.getD ((3 : Int).toNat) 0 = 90 from rfl,
      show ZMONTH_STARTS.getD ((2 : Int).toNat) 0 = 59 from rfl,
      show ([(31:Int), 28, 31, 30, 31, 30, 31, 31, 30, 31, 30, 31].getD ((2 : Int).toNat) 0) = 31 from rfl]
    norm_num
    all_goals first
    | omega
    | (split_ifs <;> omega)
  · have e1 : (month + 1 - 1) / 12 = (month - 1) / 12 := by omega
    have e2 : (month + 1 - 1) % 12 = 4 := by omega
    rw [h, e1, e2,
      show ZMONTH_STARTS.getD ((4 : Int).toNat) 0 = 120 from rfl,
      show ZMONTH_STARTS.getD ((3 : Int).toNat) 0 = 90 from rfl,
      show ([(31:Int), 28, 31, 30, 31, 30, 31, 31, 30, 31, 30, 31].getD ((3 : Int).toNat) 0) = 30 from rfl]
    norm_num
    all_goals first
    | omega
    | (split_ifs <;> omega)
  · have e1 : (month + 1 - 1) / 12 = (month - 1) / 12 := by omega
    have e2 : (month + 1 - 1) % 12 = 5 := by omega
    rw [h, e1, e2,
      show ZMONTH_STARTS.getD ((5 : Int).toNat) 0 = 151 from rfl,
      show ZMONTH_STARTS.getD ((4 : Int).toNat) 0 = 120 from rfl,
      show ([(31:Int), 28, 31, 30, 31, 30, 31, 31, 30, 31, 30, 31].getD ((4 : Int).toNat) 0) = 31 from rfl]
    norm_num
    all_goals first
    | omega
    | (split_ifs <;> omega)
  · have e1 : (month + 1 - 1) / 12 = (month - 1) / 12 := by omega
    have e2 : (month + 1 - 1) % 12 = 6 := by omega
    rw [h, e1, e2,
      show ZMONTH_STARTS.getD ((6 : Int).toNat) 0 = 181 from rfl,
      show ZMONTH_STARTS.getD ((5 : Int).toNat) 0 = 151 from rfl,
      show ([(31:Int), 28, 31, 30, 31, 30, 31, 31, 30, 31, 30, 31].getD ((5 : Int).toNat) 0) = 30 from rfl]
    norm_num
    all_goals first
    | omega
    | (split_ifs <;> omega)
  · have e1 : (month + 1 - 1) / 12 = (month - 1) / 12 := by omega
    have e2 : (month + 1 - 1) % 12 = 7 := by omega
    rw [h, e1, e2,
      show ZMONTH_STARTS.getD ((7 : Int).toNat) 0 = 212 from rfl,
      show ZMONTH_STARTS.getD ((6 : Int).toNat) 0 = 181 from rfl,
      show ([(31:Int), 28, 31, 30, 31, 30, 31, 31, 30, 31, 30, 31].getD ((6 : Int).toNat) 0) = 31 from rfl]
    norm_num
    all_goals first
    | omega
    | (split_ifs <;> omega)
  · have e1 : (month + 1 - 1) / 12 = (month - 1) / 12 := by omega
    have e2 : (month + 1 - 1) % 12 = 8 := by omega
    rw [h, e1, e2,
      show ZMONTH_STARTS.getD ((8 : Int).toNat) 0 = 243 from rfl,
      show ZMONTH_STARTS.getD ((7 : Int).toNat) 0 = 212 from rfl,
      show ([(31:Int), 28, 31, 30, 31, 30, 31, 31, 30, 31, 30, 31].getD ((7 : Int).toNat) 0) = 31 from rfl]
    norm_num
    all_goals first
    | omega
    | (split_ifs <;> omega)
  · have e1 : (month + 1 - 1) / 12 = (month - 1) / 12 := by omega
    have e2 : (month + 1 - 1) % 12 = 9 := by omega
    rw [h, e1, e2,
      show ZMONTH_STARTS.getD ((9 : Int).toNat) 0 = 273 from rfl,
      show ZMONTH_STARTS.getD ((8 : Int).toNat) 0 = 243 from rfl,
      show ([(31:Int), 28, 31, 30, 31, 30, 31, 31, 30, 31, 30, 31].getD ((8 : Int).toNat) 0) = 30 from rfl]
    norm_num
    all_goals first
    | omega
    | (split_ifs <;> omega)
  · have e1 : (month + 1 - 1) / 12 = (month - 1) / 12 := by omega
    have e2 : (month + 1 - 1) % 12 = 10 := by omega
    rw [h, e1, e2,
      show ZMONTH_STARTS.getD ((10 : Int).toNat) 0 = 304 from rfl,
      show ZMONTH_STARTS.getD ((9 : Int).toNat) 0 = 273 from rfl,
      show ([(31:Int), 28, 31, 30, 31, 30, 31, 31, 30, 31, 30, 31].getD ((9 : Int).toNat) 0) = 31 from rfl]
    norm_num
    all_goals first
    | omega
    | (split_ifs <;> omega)
  · have e1 : (month + 1 - 1) / 12 = (month - 1) / 12 := by omega
    have e2 : (month + 1 - 1) % 12 = 11 := by omega
    rw [h, e1, e2,
      show ZMONTH_STARTS.getD ((11 : Int).toNat) 0 = 334 from rfl,
      show ZMONTH_STARTS.getD ((10 : Int).toNat) 0 = 304 from rfl,
      show ([(31:Int), 28, 31, 30, 31, 30, 31, 31, 30, 31, 30, 31].getD ((10 : Int).toNat) 0) = 30 from rfl]
    norm_num
    all_goals first
    | omega
    | (split_ifs <;> omega)
  · have e1 : (month + 1 - 1) / 12 = (month - 1) / 12 + 1 := by omega
    have e2 : (month + 1 - 1) % 12 = 0 := by omega
    have hsucc := zstart_of_zyear_succ ((month - 1) / 12)
    rw [h, e1, e2,
      show ZMONTH_STARTS.getD ((0 : Int).toNat) 0 = 0 from rfl,
      show ZMONTH_STARTS.getD ((11 : Int).toNat) 0 = 334 from rfl,
      show ([(31:Int), 28, 31, 30, 31, 30, 31, 31, 30, 31, 30, 31].getD ((11 : Int).toNat) 0) = 31 from rfl, hsucc]
    norm_num
    all_goals first
    | omega
    | (split_ifs <;> omega)

/-! ### Small closed forms for the month-to-year scalers -/

theorem month_to_year_eq (m : Int) : month_to_year m = (m - 1) / 12 + 2000 := by
  unfold month_to_year EPOCH_YEAR
  split_ifs with h
  · rw [dtni_eq _ (show (0:Int) < 12 by norm_num)]
    subst h
    unfold intMin
    omega
  · rw [dtni_eq _ (show (0:Int) < 12 by norm_num)]

theorem month_to_year_up_eq (m : Int) : month_to_year_up m = -(-(m - 1) / 12) + 2000 := by
  unfold month_to_year_up EPOCH_YEAR
  split_ifs with h
  · rw [dtpi_eq _ (show (0:Int) < 12 by norm_num)]
    subst h
    unfold intMin
    omega
  · rw [dtpi_eq _ (show (0:Int) < 12 by norm_num)]

/-- Each month is at least 28 days long under `month_to_day`. -/
theorem month_to_day_succ_ge (month : Int) :
    28 ≤ month_to_day (month + 1) - month_to_day month := by
  have hm := month_length_eq month
  have g0 : [(31:Int), 28, 31, 30, 31, 30, 31, 31, 30, 31, 30, 31].getD ((0:Int).toNat) 0
      = 31 := rfl
  have g2 : [(31:Int), 28, 31, 30, 31, 30, 31, 31, 30, 31, 30, 31].getD ((2:Int).toNat) 0
      = 31 := rfl
  have g3 : [(31:Int), 28, 31, 30, 31, 30, 31, 31, 30, 31, 30, 31].getD ((3:Int).toNat) 0
      = 30 := rfl
  have g4 : [(31:Int), 28, 31, 30, 31, 30, 31, 31, 30, 31, 30, 31].getD ((4:Int).toNat) 0
      = 31 := rfl
  have g5 : [(31:Int), 28, 31, 30, 31, 30, 31, 31, 30, 31, 30, 31].getD ((5:Int).toNat) 0
      = 30 := rfl
  have g6 : [(31:Int), 28, 31, 30, 31, 30, 31, 31, 30, 31, 30, 31].getD ((6:Int).toNat) 0
      = 31 := rfl
  have g7 : [(31:Int), 28, 31, 30, 31, 30, 31, 31, 30, 31, 30, 31].getD ((7:Int).toNat) 0
      = 31 := rfl
  have g8 : [(31:Int), 28, 31, 30, 31, 30, 31, 31, 30, 31, 30, 31].getD ((8:Int).toNat) 0
      = 30 := rfl
  have g9 : [(31:Int), 28, 31, 30, 31, 30, 31, 31, 30, 31, 30, 31].getD ((9:Int).toNat) 0
      = 31 := rfl
  have g10 : [(31:Int), 28, 31, 30, 31, 30, 31, 31, 30, 31, 30, 31].getD ((10:Int).toNat) 0
      = 30 := rfl
  have g11 : [(31:Int), 28, 31, 30, 31, 30, 31, 31, 30, 31, 30, 31].getD ((11:Int).toNat) 0
      = 31 := rfl
  have h12 : (month - 1) % 12 = 0 ∨ (month - 1) % 12 = 1 ∨ (month - 1) % 12 = 2 ∨
      (month - 1) % 12 = 3 ∨ (month - 1) % 12 = 4 ∨ (month - 1) % 12 = 5 ∨
      (month - 1) % 12 = 6 ∨ (month - 1) % 12 = 7 ∨ (month - 1) % 12 = 8 ∨
      (month - 1) % 12 = 9 ∨ (month - 1) % 12 = 10 ∨ (month - 1) % 12 = 11 := by
    omega
  rcases h12 with h | h | h | h | h | h | h | h | h | h | h | h <;>
    rw [h] at hm <;>
    split_ifs at hm <;>
    omega

/-! ## The claims -/

/-- Claim C1, counterexample: the claim asserts every public scaler —
`year_to_month` among them — is total over the whole `Mark` range, but the
checked evaluation of `year_to_month` at `Mark::MAX` overflows in the
multiplication `zyear * 12`. -/
theorem c1_counterexample : year_to_monthChecked intMax = none := by rfl

set_option maxHeartbeats 12800000 in
set_option maxRecDepth 100000 in
/-- Claim C1, amended: every division-based floor/ceiling down-scaler, the
leap-day counter and the leap-second counter are total over the full `Mark`
range (the checked run succeeds and agrees with the unbounded model); the
exact up-scaler `year_to_month` overflows at both `Mark::MIN` and `Mark::MAX`
though it is exact at its documented extreme inputs; and `day_to_month` and
`day_to_month_up`, despite their `Mark::MIN` guard and totality at both
extremes, overflow at every day in the band
`Mark::MIN + 1 ≤ day ≤ Mark::MIN + 209` where the estimated year start
underflows. -/
theorem c1_amended :
    (∀ m : Int, inRange m →
      second_to_minuteChecked m = some (second_to_minute m)
      ∧ second_to_minute_upChecked m = some (second_to_minute_up m)
      ∧ minute_to_hourChecked m = some (minute_to_hour m)
      ∧ minute_to_hour_upChecked m = some (minute_to_hour_up m)
      ∧ hour_to_dayChecked m = some (hour_to_day m)
      ∧ hour_to_day_upChecked m = some (hour_to_day_up m)
      ∧ month_to_yearChecked m = some (month_to_year m)
      ∧ month_to_year_upChecked m = some (month_to_year_up m)
      ∧ millisecond_to_secondChecked m = some (millisecond_to_second m)
      ∧ millisecond_to_second_upChecked m = some (millisecond_to_second_up m)
      ∧ microsecond_to_secondChecked m = some (microsecond_to_second m)
      ∧ microsecond_to_second_upChecked m = some (microsecond_to_second_up m)
      ∧ nanosecond_to_secondChecked m = some (nanosecond_to_second m)
      ∧ nanosecond_to_second_upChecked m = some (nanosecond_to_second_up m)
      ∧ leap_days_before_yearChecked m = some (leap_days_before_year m)
      ∧ leap_seconds_before_minuteChecked m = some (leap_seconds_before_minute m))
    ∧ year_to_monthChecked intMax = none
    ∧ year_to_monthChecked intMin = none
    ∧ year_to_monthChecked 768614336404566650 = some (intMax - 6)
    ∧ year_to_monthChecked (-768614336404562650) = some (intMin + 9)
    ∧ day_to_monthChecked (intMin + 1) = none
    ∧ day_to_monthChecked (intMin + 209) = none
    ∧ day_to_monthChecked (intMin + 210) = some (-303032819133198647)
    ∧ day_to_monthChecked intMin = some (-303032819133198654)
    ∧ day_to_monthChecked intMax = some 303032819133198655
    ∧ (∀ d : Int, intMin + 1 ≤ d → d ≤ intMin + 209 →
        day_to_monthChecked d = none ∧ day_to_month_upChecked d = none)
    ∧ day_to_month_upChecked intMin = some (-303032819133198653)
    ∧ day_to_month_upChecked intMax = some 303032819133198656
    ∧ day_to_month_upChecked (intMin + 210) = some (-303032819133198647) := by
  have hband : ∀ k : Nat, k < 209 →
      day_to_monthChecked (intMin + 1 + (k : Int)) = none
      ∧ day_to_month_upChecked (intMin + 1 + (k : Int)) = none := by decide
  refine ⟨?_, by rfl, by rfl, by rfl, by rfl, by rfl, by rfl, by rfl, by rfl, by rfl,
    ?_, by rfl, by rfl, by rfl⟩
  · intro m ha
    exact ⟨second_to_minuteChecked_eq m ha, second_to_minute_upChecked_eq m ha,
      minute_to_hourChecked_eq m ha, minute_to_hour_upChecked_eq m ha,
      hour_to_dayChecked_eq m ha, hour_to_day_upChecked_eq m ha,
      month_to_yearChecked_eq m ha, month_to_year_upChecked_eq m ha,
      millisecond_to_secondChecked_eq m ha, millisecond_to_second_upChecked_eq m ha,
      microsecond_to_secondChecked_eq m ha, microsecond_to_second_upChecked_eq m ha,
      nanosecond_to_secondChecked_eq m ha, nanosecond_to_second_upChecked_eq m ha,
      leap_days_before_yearChecked_eq m ha, leap_seconds_before_minuteChecked_eq m⟩
  · intro d h1 h2
    have hk : d = intMin + 1 + (((d - (intMin + 1)).toNat : Nat) : Int) := by
      unfold intMin at *
      omega
    rw [hk]
    exact hband (d - (intMin + 1)).toNat (by unfold intMin at *; omega)

/-- Claim C1, witness for the amended theorem at concrete inputs, exercising
both the in-range hypothesis of the totality conjunct and the band bounds of
the overflow conjunct. -/
theorem c1_amended_witness :
    (inRange 120 ∧ minute_to_hourChecked 120 = some 2)
    ∧ (intMin + 1 ≤ intMin + 5 ∧ intMin + 5 ≤ intMin + 209
      ∧ day_to_monthChecked (intMin + 5) = none) := by
  refine ⟨⟨by decide, ?_⟩, by decide, by decide, ?_⟩
  · have h := (c1_amended.1 120 (by decide)).2.2.1
    rw [h]
    rfl
  · exact (c1_amended.2.2.2.2.2.2.2.2.2.2.1 (intMin + 5) (by decide) (by decide)).1

/-- Claim C2, failing evaluation: `second_to_minute` is not the exact floor
inverse of `minute_to_second`.  At the leap second closing December 1998
(second mark `-31536001`) it returns minute `-525600`, whose
`minute_to_second` start `-31536000` lies after the input; the true floor is
`-525601`.  Dually, `second_to_minute_up` is not the exact ceiling: at second
mark `189388741` (one second into the 61-second leap minute closing December
2005) it returns minute `3156479`, whose start `189388740` lies before the
input; the true ceiling is `3156480`. -/
theorem c2_failing_eval :
    second_to_minute (-31536001) = -525600
    ∧ minute_to_second (-525600) = -31536000
    ∧ minute_to_second (-525601) = -31536061
    ∧ -31536001 < minute_to_second (second_to_minute (-31536001))
    ∧ second_to_minute_up 189388741 = 3156479
    ∧ minute_to_second 3156479 = 189388740
    ∧ minute_to_second (second_to_minute_up 189388741) < 189388741 := by
  refine ⟨by rfl, by rfl, by rfl, by decide, by rfl, by rfl, by decide⟩

/-- Claim C3: `day_to_zyear_and_days` decomposes every day mark into a year
offset, a day-of-year between `0` and `364` (`365` for leap years), and the
leap flag, with the day lying between the exact start of the returned year
and the exact start of the next year. -/
theorem c3_day_decomposition (day : Int) :
    0 ≤ (day_to_zyear_and_days day).2.1
    ∧ (day_to_zyear_and_days day).2.1
        ≤ (if (day_to_zyear_and_days day).2.2 then 365 else 364)
    ∧ zstart_of_zyear (day_to_zyear_and_days day).1 ≤ day - 1
    ∧ day - 1 < zstart_of_zyear ((day_to_zyear_and_days day).1 + 1) := by
  obtain ⟨h1, h2, h3, h4⟩ := day_to_zyear_and_days_spec day
  have hs := zstart_of_zyear_succ (day_to_zyear_and_days day).1
  refine ⟨by omega, ?_, h1, h2⟩
  cases hlp : (day_to_zyear_and_days day).2.2
  · rw [hlp] at h4
    simp only [Bool.false_eq_true, false_iff] at h4
    rw [if_neg h4] at hs
    simp only [hlp, Bool.false_eq_true, if_false]
    omega
  · rw [hlp] at h4
    simp only [true_iff] at h4
    rw [if_pos h4] at hs
    simp only [hlp, if_true]
    omega

/-- Claim C4: across one year the leap-day counter rises by one exactly for
proleptic Gregorian leap years (divisible by 4, and not by 100 unless by
400), year 0 included, and at `Mark::MIN` the counter is defined by the
exact 400-year/97-leap-day cycle shift. -/
theorem c4_leap_day_counter :
    (∀ y : Int, leap_days_before_year (y + 1) - leap_days_before_year y
      = if gregLeap y then 1 else 0)
    ∧ leap_days_before_year intMin = leap_days_before_year (intMin + 400) - 97
    ∧ gregLeap 0 := by
  refine ⟨fun y => leap_days_step y, ?_, by decide⟩
  show (if intMin = intMin then leap_days_before_year_core (intMin + 400) - 97
    else leap_days_before_year_core intMin) = _
  rw [if_pos rfl, leap_days_before_year, if_neg (by decide)]

/-- Claim C5: each minute spans 61 seconds under `minute_to_second` exactly
when the next minute is a leap-second table entry, and 60 seconds otherwise;
in particular the last minutes of June 1972 and of December 1972 each span 61
seconds. -/
theorem c5_leap_minutes :
    (∀ m : Int, minute_to_second (m + 1) - minute_to_second m
      = if (m + 1) ∈ LEAP_SECONDS_MARKS then 61 else 60)
    ∧ minute_to_second (year_month_to_minute 1972 7)
        - minute_to_second (year_month_to_minute 1972 7 - 1) = 61
    ∧ minute_to_second (year_month_to_minute 1973 1)
        - minute_to_second (year_month_to_minute 1973 1 - 1) = 61 := by
  refine ⟨fun m => minute_span m, by decide, by decide⟩

/-- Claim C6: the difference of `month_to_day` across one month equals that
month's correct length — 29 for February exactly when the Gregorian year
containing the month is a leap year, 28 otherwise, and the fixed 30/31
lengths for the other months. -/
theorem c6_month_lengths (month : Int) :
    month_to_day (month + 1) - month_to_day month =
      (if (month - 1) % 12 = 1 then (if gregLeap (month_to_year month) then 29 else 28)
      else [(31:Int), 28, 31, 30, 31, 30, 31, 31, 30, 31, 30, 31].getD
        ((month - 1) % 12).toNat 0) := by
  rw [month_to_year_eq]
  exact month_length_eq month

/-- Claim C7: for every in-range dividend and every positive divisor,
`divide_towards_negative_infinity` is the mathematical floor of the rational
quotient and `divide_towards_positive_infinity` its ceiling, and the checked
computations do not overflow. -/
theorem c7_division_contract (a b : Int) (ha : inRange a) (hb : 0 < b) :
    divide_towards_negative_infinity a b = ⌊(a : ℚ) / (b : ℚ)⌋
    ∧ divide_towards_positive_infinity a b = ⌈(a : ℚ) / (b : ℚ)⌉
    ∧ divide_towards_negative_infinityChecked a b
        = some (divide_towards_negative_infinity a b)
    ∧ divide_towards_positive_infinityChecked a b
        = some (divide_towards_positive_infinity a b) :=
  ⟨dtni_ratFloor a hb, dtpi_ratCeil a hb, dtniChecked_eq a ha hb, dtpiChecked_eq a ha hb⟩

/-- Claim C7, witness at the minimum representable dividend. -/
theorem c7_witness :
    inRange intMin ∧ (0:Int) < 60 ∧
      (divide_towards_negative_infinity intMin 60 = ⌊(intMin : ℚ) / ((60:Int) : ℚ)⌋
      ∧ divide_towards_positive_infinity intMin 60 = ⌈(intMin : ℚ) / ((60:Int) : ℚ)⌉
      ∧ divide_towards_negative_infinityChecked intMin 60
          = some (divide_towards_negative_infinity intMin 60)
      ∧ divide_towards_positive_infinityChecked intMin 60
          = some (divide_towards_positive_infinity intMin 60)) :=
  ⟨by decide, by decide, c7_division_contract intMin 60 (by decide) (by decide)⟩

/-- Claim C8, failing evaluation: the claimed round-trip bounds fail at
leap seconds.  At second mark `189388741` the ceiling round trip
`minute_to_second (second_to_minute_up s) - s` is `-1`, outside `[0, 60]`;
at the leap second `-31536001` the floor round trip
`s - minute_to_second (second_to_minute s)` is `-1`, negative. -/
theorem c8_failing_eval :
    minute_to_second (second_to_minute_up 189388741) - 189388741 = -1
    ∧ (-31536001 : Int) - minute_to_second (second_to_minute (-31536001)) = -1 := by
  refine ⟨by rfl, by rfl⟩

/-- Claim C9: every public scaler of the crate (up-scalers, floor and ceiling
down-scalers, the sub-second scalers, and the two public counters) is
non-decreasing from each mark to the next. -/
theorem c9_all_scalers_monotone :
    (∀ m : Int, year_to_month m ≤ year_to_month (m + 1))
    ∧ (∀ m : Int, month_to_day m ≤ month_to_day (m + 1))
    ∧ (∀ m : Int, day_to_hour m ≤ day_to_hour (m + 1))
    ∧ (∀ m : Int, hour_to_minute m ≤ hour_to_minute (m + 1))
    ∧ (∀ m : Int, minute_to_second m ≤ minute_to_second (m + 1))
    ∧ (∀ m : Int, second_to_minute m ≤ second_to_minute (m + 1))
    ∧ (∀ m : Int, second_to_minute_up m ≤ second_to_minute_up (m + 1))
    ∧ (∀ m : Int, minute_to_hour m ≤ minute_to_hour (m + 1))
    ∧ (∀ m : Int, minute_to_hour_up m ≤ minute_to_hour_up (m + 1))
    ∧ (∀ m : Int, hour_to_day m ≤ hour_to_day (m + 1))
    ∧ (∀ m : Int, hour_to_day_up m ≤ hour_to_day_up (m + 1))
    ∧ (∀ m : Int, day_to_month m ≤ day_to_month (m + 1))
    ∧ (∀ m : Int, day_to_month_up m ≤ day_to_month_up (m + 1))
    ∧ (∀ m : Int, month_to_year m ≤ month_to_year (m + 1))
    ∧ (∀ m : Int, month_to_year_up m ≤ month_to_year_up (m + 1))
    ∧ (∀ m : Int, leap_days_before_year m ≤ leap_days_before_year (m + 1))
    ∧ (∀ m : Int, leap_seconds_before_minute m ≤ leap_seconds_before_minute (m + 1))
    ∧ (∀ m : Int, millisecond_to_second m ≤ millisecond_to_second (m + 1))
    ∧ (∀ m : Int, millisecond_to_second_up m ≤ millisecond_to_second_up (m + 1))
    ∧ (∀ m : Int, microsecond_to_second m ≤ microsecond_to_second (m + 1))
    ∧ (∀ m : Int, microsecond_to_second_up m ≤ microsecond_to_second_up (m + 1))
    ∧ (∀ m : Int, nanosecond_to_second m ≤ nanosecond_to_second (m + 1))
    ∧ (∀ m : Int, nanosecond_to_second_up m ≤ nanosecond_to_second_up (m + 1))
    ∧ (∀ m : Int, second_to_millisecond m ≤ second_to_millisecond (m + 1))
    ∧ (∀ m : Int, second_to_microsecond m ≤ second_to_microsecond (m + 1))
    ∧ (∀ m : Int, second_to_nanosecond m ≤ second_to_nanosecond (m + 1)) := by
  refine ⟨?_, ?_, ?_, ?_, ?_, ?_, ?_, ?_, ?_, ?_, ?_, ?_, ?_, ?_, ?_, ?_, ?_, ?_,
    ?_, ?_, ?_, ?_, ?_, ?_, ?_, ?_⟩
  · intro m
    simp only [year_to_month]
    omega
  · intro m
    have := month_to_day_succ_ge m
    omega
  · intro m
    simp only [day_to_hour]
    omega
  · intro m
    unfold hour_to_minute
    omega
  · exact minute_to_second_mono
  · exact second_to_minute_mono
  · exact second_to_minute_up_mono
  · intro m
    unfold minute_to_hour
    rw [dtni_eq m (show (0:Int) < 60 by norm_num),
      dtni_eq (m + 1) (show (0:Int) < 60 by norm_num)]
    omega
  · intro m
    unfold minute_to_hour_up
    rw [dtpi_eq m (show (0:Int) < 60 by norm_num),
      dtpi_eq (m + 1) (show (0:Int) < 60 by norm_num)]
    omega
  · intro m
    unfold hour_to_day
    rw [dtni_eq m (show (0:Int) < 24 by norm_num),
      dtni_eq (m + 1) (show (0:Int) < 24 by norm_num)]
    omega
  · intro m
    unfold hour_to_day_up
    rw [dtpi_eq m (show (0:Int) < 24 by norm_num),
      dtpi_eq (m + 1) (show (0:Int) < 24 by norm_num)]
    omega
  · exact day_to_month_mono
  · exact day_to_month_up_mono
  · intro m
    rw [month_to_year_eq, month_to_year_eq]
    omega
  · intro m
    rw [month_to_year_up_eq, month_to_year_up_eq]
    omega
  · intro m
    rw [leap_days_before_year_eq, leap_days_before_year_eq]
    omega
  · intro m
    exact leap_seconds_mono (by omega)
  · intro m
    unfold millisecond_to_second
    rw [dtni_eq m (show (0:Int) < 1000 by norm_num),
      dtni_eq (m + 1) (show (0:Int) < 1000 by norm_num)]
    omega
  · intro m
    unfold millisecond_to_second_up
    rw [dtpi_eq m (show (0:Int) < 1000 by norm_num),
      dtpi_eq (m + 1) (show (0:Int) < 1000 by norm_num)]
    omega
  · intro m
    unfold microsecond_to_second
    rw [dtni_eq m (show (0:Int) < 1000000 by norm_num),
      dtni_eq (m + 1) (show (0:Int) < 1000000 by norm_num)]
    omega
  · intro m
    unfold microsecond_to_second_up
    rw [dtpi_eq m (show (0:Int) < 1000000 by norm_num),
      dtpi_eq (m + 1) (show (0:Int) < 1000000 by norm_num)]
    omega
  · intro m
    unfold nanosecond_to_second
    rw [dtni_eq m (show (0:Int) < 1000000000 by norm_num),
      dtni_eq (m + 1) (show (0:Int) < 1000000000 by norm_num)]
    omega
  · intro m
    unfold nanosecond_to_second_up
    rw [dtpi_eq m (show (0:Int) < 1000000000 by norm_num),
      dtpi_eq (m + 1) (show (0:Int) < 1000000000 by norm_num)]
    omega
  · intro m
    unfold second_to_millisecond
    omega
  · intro m
    unfold second_to_microsecond
    omega
  · intro m
    unfold second_to_nanosecond
    omega

/-- Claim C10: the leap-second counter stays within `[-22, 5]`, is `-22`
strictly before the first table entry (July 1972), is `5` from the last table
entry (January 2017) onwards, is non-decreasing, and consequently
`minute_to_second` never deviates from `60 * minute` by more than 22 below or
5 above. -/
theorem c10_leap_second_envelope :
    (∀ m : Int, -22 ≤ leap_seconds_before_minute m ∧ leap_seconds_before_minute m ≤ 5)
    ∧ (∀ m : Int, m < year_month_to_minute 1972 7 → leap_seconds_before_minute m = -22)
    ∧ (∀ m : Int, year_month_to_minute 2017 1 ≤ m → leap_seconds_before_minute m = 5)
    ∧ (∀ m m' : Int, m ≤ m' →
        leap_seconds_before_minute m ≤ leap_seconds_before_minute m')
    ∧ (∀ m : Int, -22 ≤ minute_to_second m - 60 * m ∧ minute_to_second m - 60 * m ≤ 5) := by
  refine ⟨leap_seconds_bounds, ?_, ?_, fun m m' h => leap_seconds_mono h, ?_⟩
  · intro m hm
    rw [show year_month_to_minute 1972 7 = -14464800 from rfl] at hm
    exact leap_seconds_low hm
  · intro m hm
    rw [show year_month_to_minute 2017 1 = 8942400 from rfl] at hm
    exact leap_seconds_high hm
  · intro m
    have := leap_seconds_bounds m
    unfold minute_to_second
    constructor <;> omega

/-- Claim C10, witness at a minute before the first table entry. -/
theorem c10_witness :
    (-20000000 : Int) < year_month_to_minute 1972 7
    ∧ leap_seconds_before_minute (-20000000) = -22 :=
  ⟨by decide, c10_leap_second_envelope.2.1 (-20000000) (by decide)⟩
